import Mathlib

/-!
Verification of the ProtocolBanks SDK integrity engine, shallowly embedded
from the Python sources in `packages/python/src/protocolbanks`: payment-link
generation and verification (`modules/links.py`), webhook authentication
(`modules/webhooks.py`), batch recipient validation (`modules/batch.py`),
x402 authorization lifecycle (`modules/x402.py`), and the shared utilities
(`utils/crypto.py`, `utils/validation.py`, `config.py`).

Python machine-level details are modelled as follows: `str` is `String`,
`int` is `Int`/`Nat`, byte strings are `List Nat` (each entry < 256),
wall-clock reads (`time.time()`, `datetime.now()`) are explicit `now`
parameters, random values (uuid, nonce) are explicit parameters, in-memory
dict stores are association lists threaded through the functions, and raised
`ProtocolBanksError`s are `Except` errors.
-/

set_option maxRecDepth 100000

namespace ProtocolBanks

/-! ## Byte and word primitives (Python `hashlib`/`hmac` ground truth) -/

/-- Truncation to a 32-bit word. -/
def w32 (n : Nat) : Nat := n % 4294967296

/-- 32-bit right rotation. -/
def rot32 (x n : Nat) : Nat := w32 ((x >>> n) ||| (x <<< (32 - n)))

def bsig0 (x : Nat) : Nat := (rot32 x 2) ^^^ (rot32 x 13) ^^^ (rot32 x 22)

def bsig1 (x : Nat) : Nat := (rot32 x 6) ^^^ (rot32 x 11) ^^^ (rot32 x 25)

def ssig0 (x : Nat) : Nat := (rot32 x 7) ^^^ (rot32 x 18) ^^^ (x >>> 3)

def ssig1 (x : Nat) : Nat := (rot32 x 17) ^^^ (rot32 x 19) ^^^ (x >>> 10)

def sha_ch (x y z : Nat) : Nat := (x &&& y) ^^^ ((x ^^^ 4294967295) &&& z)

def sha_maj (x y z : Nat) : Nat := ((x &&& y) ^^^ (x &&& z)) ^^^ (y &&& z)

/-- The 64 SHA-256 round constants of FIPS 180-4, written in decimal. -/
def sha_k : List Nat :=
  [1116352408, 1899447441, 3049323471, 3921009573,
   961987163, 1508970993, 2453635748, 2870763221,
   3624381080, 310598401, 607225278, 1426881987,
   1925078388, 2162078206, 2614888103, 3248222580,
   3835390401, 4022224774, 264347078, 604807628,
   770255983, 1249150122, 1555081692, 1996064986,
   2554220882, 2821834349, 2952996808, 3210313671,
   3336571891, 3584528711, 113926993, 338241895,
   666307205, 773529912, 1294757372, 1396182291,
   1695183700, 1986661051, 2177026350, 2456956037,
   2730485921, 2820302411, 3259730800, 3345764771,
   3516065817, 3600352804, 4094571909, 275423344,
   430227734, 506948616, 659060556, 883997877,
   958139571, 1322822218, 1537002063, 1747873779,
   1955562222, 2024104815, 2227730452, 2361852424,
   2428436474, 2756734187, 3204031479, 3329325298]

/-- Group a byte list into big-endian 32-bit words. -/
def bytes_to_words : List Nat → List Nat
  | b0 :: b1 :: b2 :: b3 :: rest =>
      (b0 * 16777216 + b1 * 65536 + b2 * 256 + b3) :: bytes_to_words rest
  | _ => []

/-- Big-endian encoding of `n` into exactly `k` bytes. -/
def to_bytes_be (k n : Nat) : List Nat :=
  match k with
  | 0 => []
  | k + 1 => to_bytes_be k (n / 256) ++ [n % 256]

/-- Extend the 16 schedule words of a block to 64. -/
def sha_sched (ws : List Nat) : List Nat :=
  (List.range 48).foldl
    (fun acc _ =>
      let n := acc.length
      acc ++ [w32 (ssig1 (acc.getD (n - 2) 0) + acc.getD (n - 7) 0 +
                   ssig0 (acc.getD (n - 15) 0) + acc.getD (n - 16) 0)])
    ws

/-- The 8-word SHA-256 hash state. -/
structure Hash8 where
  a : Nat
  b : Nat
  c : Nat
  d : Nat
  e : Nat
  f : Nat
  g : Nat
  h : Nat
deriving DecidableEq, Repr

def sha_h0 : Hash8 :=
  ⟨1779033703, 3144134277, 1013904242, 2773480762,
   1359893119, 2600822924, 528734635, 1541459225⟩

/-- One SHA-256 round on the working state. -/
def sha_round (st : Hash8) (kw : Nat × Nat) : Hash8 :=
  let t1 := w32 (st.h + bsig1 st.e + sha_ch st.e st.f st.g + kw.1 + kw.2)
  let t2 := w32 (bsig0 st.a + sha_maj st.a st.b st.c)
  ⟨w32 (t1 + t2), st.a, st.b, st.c, w32 (st.d + t1), st.e, st.f, st.g⟩

/-- SHA-256 compression: absorb one 64-byte block into the hash state. -/
def sha_compress (hs : Hash8) (block : List Nat) : Hash8 :=
  let ws := sha_sched (bytes_to_words block)
  let st := (sha_k.zip ws).foldl sha_round hs
  ⟨w32 (hs.a + st.a), w32 (hs.b + st.b), w32 (hs.c + st.c), w32 (hs.d + st.d),
   w32 (hs.e + st.e), w32 (hs.f + st.f), w32 (hs.g + st.g), w32 (hs.h + st.h)⟩

/-- Split a list into chunks of 64, with explicit fuel for structural recursion. -/
def chunks64 : Nat → List Nat → List (List Nat)
  | 0, _ => []
  | _, [] => []
  | fuel + 1, l => l.take 64 :: chunks64 fuel (l.drop 64)

/-- SHA-256 padding: 0x80, zeros, then the 64-bit big-endian bit length. -/
def sha_pad (msg : List Nat) : List Nat :=
  msg ++ 128 :: List.replicate ((119 - msg.length % 64) % 64) 0 ++
    to_bytes_be 8 (msg.length * 8)

/-- SHA-256 of a byte list, as a 32-byte digest. -/
def sha256_bytes (msg : List Nat) : List Nat :=
  let padded := sha_pad msg
  let hfin := (chunks64 padded.length padded).foldl sha_compress sha_h0
  to_bytes_be 4 hfin.a ++ to_bytes_be 4 hfin.b ++ to_bytes_be 4 hfin.c ++
    to_bytes_be 4 hfin.d ++ to_bytes_be 4 hfin.e ++ to_bytes_be 4 hfin.f ++
    to_bytes_be 4 hfin.g ++ to_bytes_be 4 hfin.h

/-- Lower-case hex digit for a value below 16 (also the decimal digit below 10). -/
def hex_char (d : Nat) : Char :=
  match d with
  | 0 => '0' | 1 => '1' | 2 => '2' | 3 => '3' | 4 => '4'
  | 5 => '5' | 6 => '6' | 7 => '7' | 8 => '8' | 9 => '9'
  | 10 => 'a' | 11 => 'b' | 12 => 'c' | 13 => 'd' | 14 => 'e' | _ => 'f'

def byte_hex (b : Nat) : List Char := [hex_char (b / 16), hex_char (b % 16)]

def bytes_hex (bs : List Nat) : List Char := bs.foldr (fun b acc => byte_hex b ++ acc) []

/-- UTF-8 encoding of one code point (Python `str.encode("utf-8")`). -/
def utf8_char (c : Nat) : List Nat :=
  if c < 128 then [c]
  else if c < 2048 then [192 + c / 64, 128 + c % 64]
  else if c < 65536 then [224 + c / 4096, 128 + c / 64 % 64, 128 + c % 64]
  else [240 + c / 262144, 128 + c / 4096 % 64, 128 + c / 64 % 64, 128 + c % 64]

/-- UTF-8 bytes of a string. -/
def str_bytes (s : String) : List Nat :=
  s.data.foldr (fun c acc => utf8_char c.toNat ++ acc) []

/-- crypto.sha256: SHA-256 hexdigest of a string. -/
def sha256 (data : String) : String :=
  String.mk (bytes_hex (sha256_bytes (str_bytes data)))

/-- HMAC-SHA256 over byte lists (Python `hmac.new(key, msg, sha256)`). -/
def hmac_sha256_bytes (key msg : List Nat) : List Nat :=
  let k0 := if key.length > 64 then sha256_bytes key else key
  let kp := k0 ++ List.replicate (64 - k0.length) 0
  sha256_bytes (kp.map (fun b => b ^^^ 92) ++
    sha256_bytes (kp.map (fun b => b ^^^ 54) ++ msg))

/-- crypto.hmac_sign: HMAC-SHA256 hexdigest of `data` keyed by `secret`. -/
def hmac_sign (data secret : String) : String :=
  String.mk (bytes_hex (hmac_sha256_bytes (str_bytes secret) (str_bytes data)))

/-- First `n` characters of a string (Python slice `s[:n]`). -/
def str_take (s : String) (n : Nat) : String := String.mk (s.data.take n)

/-- crypto.hmac_sign_short: HMAC signature truncated to 16 hex characters. -/
def hmac_sign_short (data secret : String) : String := str_take (hmac_sign data secret) 16

example : sha256 "abc" = "ba7816bf8f01cfea414140de5dae2223b00361a396177a9cb410ff61f20015ad" := by
  rfl

example :
    hmac_sign "The quick brown fox jumps over the lazy dog" "key" =
      "f7bc83f430538424b13298e6aa6fb143ef4d59a14946175997479dbc2d1a3cd8" := by
  rfl

/-! ## Python string/number primitives -/

/-- Decimal digits of `n`, least significant first, with explicit fuel. -/
def nat_digits_rev (fuel n : Nat) : List Nat :=
  match fuel with
  | 0 => []
  | fuel + 1 => if n < 10 then [n] else n % 10 :: nat_digits_rev fuel (n / 10)

/-- Decimal representation of a natural number (Python `str(n)` for `n ≥ 0`). -/
def nat_chars (n : Nat) : List Char := (nat_digits_rev (n + 1) n).reverse.map hex_char

def nat_str (n : Nat) : String := String.mk (nat_chars n)

/-- Decimal representation of an integer (Python `str(i)`). -/
def int_chars (i : Int) : List Char :=
  if i < 0 then '-' :: nat_chars i.natAbs else nat_chars i.natAbs

def int_str (i : Int) : String := String.mk (int_chars i)

/-- The numeric value of a decimal digit character (code points 48–57). -/
def char_digit (c : Char) : Option Nat :=
  if 48 ≤ c.toNat ∧ c.toNat ≤ 57 then some (c.toNat - 48) else none

def parse_digits : List Char → Nat → Option Nat
  | [], acc => some acc
  | c :: cs, acc =>
      match char_digit c with
      | some d => parse_digits cs (acc * 10 + d)
      | none => none

/-- Python `int(str)`: an optional sign followed by decimal digits.  (Surrounding
whitespace and `_` separators, which Python also accepts, are not modelled; no
call site in the verified code produces them.) -/
def py_int_chars : List Char → Option Int
  | [] => none
  | '-' :: cs => if cs = [] then none else (parse_digits cs 0).map (fun n => -(n : Int))
  | '+' :: cs => if cs = [] then none else (parse_digits cs 0).map (fun n => (n : Int))
  | cs => (parse_digits cs 0).map (fun n => (n : Int))

def py_int (s : String) : Option Int := py_int_chars s.data

/-- Python `str.split(sep)` on character lists. -/
def char_split (sep : Char) : List Char → List (List Char)
  | [] => [[]]
  | c :: cs =>
      if c = sep then [] :: char_split sep cs
      else
        match char_split sep cs with
        | [] => [[c]]
        | p :: ps => (c :: p) :: ps

/-- ASCII lower-casing of one character.  (Python `str.lower` also folds
non-ASCII letters; every call site in the verified code lower-cases
blockchain addresses and token symbols, for which ASCII folding agrees.) -/
def lower_char (c : Char) : Char :=
  if 65 ≤ c.toNat ∧ c.toNat ≤ 90 then Char.ofNat (c.toNat + 32) else c

def upper_char (c : Char) : Char :=
  if 97 ≤ c.toNat ∧ c.toNat ≤ 122 then Char.ofNat (c.toNat - 32) else c

def py_lower (s : String) : String := String.mk (s.data.map lower_char)

def py_upper (s : String) : String := String.mk (s.data.map upper_char)

/-- Python `x or default` for an optional string (`None` and `""` are falsy). -/
def py_or_str (o : Option String) (d : String) : String :=
  match o with
  | some s => if s = "" then d else s
  | none => d

/-- Python `x or default` for an optional integer (`None` and `0` are falsy). -/
def py_or_int (o : Option Int) (d : Int) : Int :=
  match o with
  | some n => if n = 0 then d else n
  | none => d

/-! ### Round-trip facts about the decimal printer/parsers -/

theorem nat_digits_rev_lt (fuel n : Nat) : ∀ d ∈ nat_digits_rev fuel n, d < 10 := by
  induction fuel generalizing n with
  | zero => simp [nat_digits_rev]
  | succ fuel ih =>
      intro d hd
      rw [nat_digits_rev] at hd
      by_cases h : n < 10
      · simp [h] at hd; omega
      · simp [h] at hd
        rcases hd with h1 | h2
        · omega
        · exact ih _ d h2

def digits_val (l : List Nat) : Nat := l.foldl (fun a d => a * 10 + d) 0

theorem digits_val_append_singleton (l : List Nat) (d : Nat) :
    digits_val (l ++ [d]) = digits_val l * 10 + d := by
  simp [digits_val, List.foldl_append]

theorem digits_val_rev_digits (fuel n : Nat) (h : n < fuel) :
    digits_val (nat_digits_rev fuel n).reverse = n := by
  induction fuel generalizing n with
  | zero => omega
  | succ fuel ih =>
      rw [nat_digits_rev]
      by_cases hn : n < 10
      · simp [hn, digits_val]
      · have hd : n / 10 < fuel := by
          have := Nat.div_lt_self (by omega : 0 < n) (by omega : 1 < 10)
          omega
        simp only [hn, if_false, List.reverse_cons]
        rw [digits_val_append_singleton, ih _ hd]
        omega

theorem char_digit_hex_char {d : Nat} (h : d < 10) : char_digit (hex_char d) = some d := by
  interval_cases d <;> rfl

theorem parse_digits_map_hex_char (l : List Nat) (hl : ∀ d ∈ l, d < 10) (acc : Nat) :
    parse_digits (l.map hex_char) acc = some (l.foldl (fun a d => a * 10 + d) acc) := by
  induction l generalizing acc with
  | nil => rfl
  | cons d l ih =>
      have hd : d < 10 := hl d (by simp)
      simp only [List.map_cons, parse_digits, char_digit_hex_char hd, List.foldl_cons]
      exact ih (fun x hx => hl x (by simp [hx])) _

theorem parse_digits_nat_chars (n : Nat) : parse_digits (nat_chars n) 0 = some n := by
  rw [nat_chars, parse_digits_map_hex_char _
    (fun d hd => nat_digits_rev_lt _ _ d (List.mem_reverse.mp hd))]
  have := digits_val_rev_digits (n + 1) n (by omega)
  simpa [digits_val] using this

theorem nat_chars_ne_nil (n : Nat) : nat_chars n ≠ [] := by
  rw [nat_chars]
  rcases h : nat_digits_rev (n + 1) n with _ | ⟨d, l⟩
  · rw [nat_digits_rev] at h
    by_cases hn : n < 10 <;> simp [hn] at h
  · simp

/-- Every character of `nat_chars` is a decimal digit. -/
theorem nat_chars_digit (n : Nat) : ∀ c ∈ nat_chars n, char_digit c ≠ none := by
  intro c hc
  rw [nat_chars] at hc
  obtain ⟨d, hd, rfl⟩ := List.mem_map.mp hc
  have : d < 10 := nat_digits_rev_lt _ _ d (List.mem_reverse.mp hd)
  rw [char_digit_hex_char this]
  simp

theorem py_int_chars_of_digits (l : List Char) (hne : l ≠ [])
    (hdig : ∀ c ∈ l, char_digit c ≠ none) (n : Nat)
    (hparse : parse_digits l 0 = some n) :
    py_int_chars l = some (n : Int) := by
  rcases l with _ | ⟨c, cs⟩
  · exact absurd rfl hne
  · have hc := hdig c (by simp)
    unfold py_int_chars
    split
    · simp_all
    · next heq =>
        exfalso
        apply hc
        rw [List.cons.injEq] at heq
        rw [heq.1]
        rfl
    · next heq =>
        exfalso
        apply hc
        rw [List.cons.injEq] at heq
        rw [heq.1]
        rfl
    · rw [hparse]
      rfl

theorem py_int_nat_str (n : Nat) : py_int (nat_str n) = some (n : Int) := by
  exact py_int_chars_of_digits _ (nat_chars_ne_nil n) (nat_chars_digit n) n
    (parse_digits_nat_chars n)

/-! ## utils/validation.py — homoglyph detection -/

/-- `ALL_HOMOGLYPHS`: the confusable Cyrillic/Greek code points and their Latin
look-alikes.  (`GREEK_HOMOGLYPHS` is merged second, but the two tables have
disjoint keys, so the merge is a plain union.) -/
def homoglyph_sub : Char → Option Char
  | 'а' => some 'a' | 'е' => some 'e' | 'о' => some 'o' | 'р' => some 'p'
  | 'с' => some 'c' | 'х' => some 'x' | 'у' => some 'y'
  | 'А' => some 'A' | 'В' => some 'B' | 'Е' => some 'E' | 'К' => some 'K'
  | 'М' => some 'M' | 'Н' => some 'H' | 'О' => some 'O' | 'Р' => some 'P'
  | 'С' => some 'C' | 'Т' => some 'T' | 'Х' => some 'X'
  | 'Α' => some 'A' | 'Β' => some 'B' | 'Ε' => some 'E' | 'Ζ' => some 'Z'
  | 'Η' => some 'H' | 'Ι' => some 'I' | 'Κ' => some 'K' | 'Μ' => some 'M'
  | 'Ν' => some 'N' | 'Ο' => some 'O' | 'Ρ' => some 'P' | 'Τ' => some 'T'
  | 'Υ' => some 'Y' | 'Χ' => some 'X' | 'ο' => some 'o'
  | _ => none

/-- Upper-case hex digit. -/
def hex_char_upper (d : Nat) : Char :=
  match d with
  | 0 => '0' | 1 => '1' | 2 => '2' | 3 => '3' | 4 => '4'
  | 5 => '5' | 6 => '6' | 7 => '7' | 8 => '8' | 9 => '9'
  | 10 => 'A' | 11 => 'B' | 12 => 'C' | 13 => 'D' | 14 => 'E' | _ => 'F'

/-- Python `f"U+{ord(char):04X}"` for the code points in the homoglyph table
(all of which are below 0x10000, hence exactly four hex digits). -/
def unicode_point_str (c : Char) : String :=
  String.mk ('U' :: '+' :: [hex_char_upper (c.toNat / 4096 % 16),
    hex_char_upper (c.toNat / 256 % 16), hex_char_upper (c.toNat / 16 % 16),
    hex_char_upper (c.toNat % 16)])

/-- One entry of `HomoglyphDetails.detected_characters`. -/
structure DetectedChar where
  position : Nat
  character : Char
  unicode_point : String
  expected_character : Char
deriving DecidableEq, Repr

structure HomoglyphDetails where
  original_address : String
  detected_characters : List DetectedChar
deriving DecidableEq, Repr

/-- validation.detect_homoglyphs. -/
def detect_homoglyphs (input_str : String) : Option HomoglyphDetails :=
  let det := input_str.data.enum.filterMap (fun ic =>
    (homoglyph_sub ic.2).map (fun e => ⟨ic.1, ic.2, unicode_point_str ic.2, e⟩))
  match det with
  | [] => none
  | _ => some ⟨input_str, det⟩

/-- validation.contains_homoglyphs. -/
def contains_homoglyphs (input_str : String) : Bool := (detect_homoglyphs input_str).isSome

/-! ## utils/validation.py — address format validation -/

def is_hex_digit (c : Char) : Bool :=
  (48 ≤ c.toNat && c.toNat ≤ 57) || (97 ≤ c.toNat && c.toNat ≤ 102) ||
    (65 ≤ c.toNat && c.toNat ≤ 70)

/-- The character class `[1-9A-HJ-NP-Za-km-z]` (Base58; also the Bitcoin
legacy/P2SH body class `[a-km-zA-HJ-NP-Z1-9]`, which is the same set). -/
def is_base58_char (c : Char) : Bool :=
  (49 ≤ c.toNat && c.toNat ≤ 57) || (65 ≤ c.toNat && c.toNat ≤ 72) ||
    (74 ≤ c.toNat && c.toNat ≤ 78) || (80 ≤ c.toNat && c.toNat ≤ 90) ||
    (97 ≤ c.toNat && c.toNat ≤ 107) || (109 ≤ c.toNat && c.toNat ≤ 122)

/-- The character class `[a-z0-9]`. -/
def is_lower_alnum (c : Char) : Bool :=
  (97 ≤ c.toNat && c.toNat ≤ 122) || (48 ≤ c.toNat && c.toNat ≤ 57)

/-- `EVM_ADDRESS_PATTERN`: `^0x[a-fA-F0-9]{40}$`. -/
def evm_pattern (s : String) : Bool :=
  match s.data with
  | '0' :: 'x' :: rest => rest.length == 40 && rest.all is_hex_digit
  | _ => false

/-- `SOLANA_ADDRESS_PATTERN`: `^[1-9A-HJ-NP-Za-km-z]{32,44}$`. -/
def solana_pattern (s : String) : Bool :=
  32 ≤ s.data.length && s.data.length ≤ 44 && s.data.all is_base58_char

/-- `BITCOIN_PATTERNS["legacy"]`: `^1[a-km-zA-HJ-NP-Z1-9]{25,34}$`. -/
def btc_legacy_pattern (s : String) : Bool :=
  match s.data with
  | '1' :: rest => 25 ≤ rest.length && rest.length ≤ 34 && rest.all is_base58_char
  | _ => false

/-- `BITCOIN_PATTERNS["segwit"]`: `^3[a-km-zA-HJ-NP-Z1-9]{25,34}$`. -/
def btc_segwit_pattern (s : String) : Bool :=
  match s.data with
  | '3' :: rest => 25 ≤ rest.length && rest.length ≤ 34 && rest.all is_base58_char
  | _ => false

/-- `BITCOIN_PATTERNS["bech32"]`: `^bc1[a-z0-9]{39,59}$`. -/
def btc_bech32_pattern (s : String) : Bool :=
  match s.data with
  | 'b' :: 'c' :: '1' :: rest =>
      39 ≤ rest.length && rest.length ≤ 59 && rest.all is_lower_alnum
  | _ => false

/-- `BITCOIN_PATTERNS["taproot"]`: `^bc1p[a-z0-9]{58}$`. -/
def btc_taproot_pattern (s : String) : Bool :=
  match s.data with
  | 'b' :: 'c' :: '1' :: 'p' :: rest => rest.length == 58 && rest.all is_lower_alnum
  | _ => false

def is_valid_evm_address (address : String) : Bool :=
  !contains_homoglyphs address && evm_pattern address

def is_valid_solana_address (address : String) : Bool :=
  !contains_homoglyphs address && solana_pattern address

def is_valid_bitcoin_address (address : String) : Bool :=
  !contains_homoglyphs address &&
    (btc_legacy_pattern address || btc_segwit_pattern address ||
     btc_bech32_pattern address || btc_taproot_pattern address)

/-- A `ChainId` is either a numeric EVM chain id or the strings
`"solana"`/`"bitcoin"`. -/
inductive ChainVal where
  | num (n : Int)
  | str (s : String)
deriving DecidableEq, Repr

/-- validation.is_valid_address. -/
def is_valid_address (address : String) (chain_id : Option ChainVal) : Bool :=
  if contains_homoglyphs address then false
  else if chain_id == some (.str "solana") then is_valid_solana_address address
  else if chain_id == some (.str "bitcoin") then is_valid_bitcoin_address address
  else is_valid_evm_address address

/-- `ProtocolBanksError`, reduced to its code, message and retryability (the
structured `details` payload is not needed by any claim and is not modelled). -/
structure PBError where
  code : String
  message : String
  retryable : Bool := false
deriving DecidableEq, Repr

def chain_display_name (chain_id : Option ChainVal) : String :=
  if chain_id == some (.str "solana") then "Solana"
  else if chain_id == some (.str "bitcoin") then "Bitcoin"
  else "EVM"

/-- validation.validate_address. -/
def validate_address (address : String) (chain_id : Option ChainVal) : Except PBError Unit :=
  match detect_homoglyphs address with
  | some _ =>
      .error ⟨"PB_LINK_007", "Potential homoglyph attack detected in address", false⟩
  | none =>
      if is_valid_address address chain_id then .ok ()
      else .error ⟨"PB_LINK_001",
        "Invalid " ++ chain_display_name chain_id ++ " address format", false⟩

/-! ## utils/validation.py — amount validation

Python parses amounts with `float(...)`.  The model parses the same decimal
literals into an exact pair (mantissa, power of ten).  Binary-float rounding,
`inf`/`nan` literals, surrounding whitespace and `_` digit separators are not
modelled; every comparison performed by the verified code on its inputs agrees
with the exact decimal value. -/

/-- An exact decimal value `num * 10 ^ exp`. -/
structure Dec where
  num : Int
  exp : Int
deriving DecidableEq, Repr

def span_digits : List Char → List Nat × List Char
  | [] => ([], [])
  | c :: cs =>
      match char_digit c with
      | some d =>
          let p := span_digits cs
          (d :: p.1, p.2)
      | none => ([], c :: cs)

def py_float_chars (l : List Char) : Option Dec :=
  let sl : Int × List Char :=
    match l with
    | '-' :: cs => (-1, cs)
    | '+' :: cs => (1, cs)
    | _ => (1, l)
  let ip := span_digits sl.2
  let fp : List Nat × List Char :=
    match ip.2 with
    | '.' :: cs => span_digits cs
    | _ => ([], ip.2)
  if ip.1 = [] ∧ fp.1 = [] then none
  else
    let mant : Int := sl.1 * (digits_val (ip.1 ++ fp.1) : Int)
    let e0 : Int := -(fp.1.length : Int)
    match fp.2 with
    | [] => some ⟨mant, e0⟩
    | 'e' :: cs =>
        let esl : Int × List Char :=
          match cs with
          | '-' :: cs2 => (-1, cs2)
          | '+' :: cs2 => (1, cs2)
          | _ => (1, cs)
        let ep := span_digits esl.2
        if ep.1 = [] ∨ ep.2 ≠ [] then none
        else some ⟨mant, e0 + esl.1 * (digits_val ep.1 : Int)⟩
    | 'E' :: cs =>
        let esl : Int × List Char :=
          match cs with
          | '-' :: cs2 => (-1, cs2)
          | '+' :: cs2 => (1, cs2)
          | _ => (1, cs)
        let ep := span_digits esl.2
        if ep.1 = [] ∨ ep.2 ≠ [] then none
        else some ⟨mant, e0 + esl.1 * (digits_val ep.1 : Int)⟩
    | _ => none

/-- Python `float(s)` as an exact decimal. -/
def py_float (s : String) : Option Dec := py_float_chars s.data

/-- `d ≤ a / b` for `b > 0`. -/
def dec_le_frac (d : Dec) (a b : Int) : Bool :=
  if 0 ≤ d.exp then d.num * 10 ^ d.exp.toNat * b ≤ a
  else d.num * b ≤ a * 10 ^ (-d.exp).toNat

/-- `d < a / b` for `b > 0`. -/
def dec_lt_frac (d : Dec) (a b : Int) : Bool :=
  if 0 ≤ d.exp then d.num * 10 ^ d.exp.toNat * b < a
  else d.num * b < a * 10 ^ (-d.exp).toNat

/-- `a / b < d` for `b > 0`. -/
def dec_gt_frac (d : Dec) (a b : Int) : Bool :=
  if 0 ≤ d.exp then a < d.num * 10 ^ d.exp.toNat * b
  else a * 10 ^ (-d.exp).toNat < d.num * b

/-- validation.validate_amount (`MIN_AMOUNT = "0.01"`, `MAX_AMOUNT = "1000000000"`). -/
def validate_amount (amount : String) : Except PBError Unit :=
  match py_float amount with
  | none => .error ⟨"PB_LINK_002", "Amount must be a valid number", false⟩
  | some q =>
      if dec_le_frac q 0 1 then
        .error ⟨"PB_LINK_002", "Amount must be greater than 0", false⟩
      else if dec_lt_frac q 1 100 then
        .error ⟨"PB_LINK_002", "Amount must be at least 0.01", false⟩
      else if dec_gt_frac q 1000000000 1 then
        .error ⟨"PB_LINK_002", "Amount must not exceed 1000000000", false⟩
      else .ok ()

/-- validation.is_valid_amount (adds the ≤ 18 decimal-places check). -/
def is_valid_amount (amount : String) : Bool :=
  match py_float amount with
  | none => false
  | some q =>
      !dec_le_frac q 0 1 && !dec_lt_frac q 1 100 && !dec_gt_frac q 1000000000 1 &&
        (match char_split '.' amount.data with
         | _ :: frac :: _ => frac.length ≤ 18
         | _ => true)

/-! ## utils/validation.py — token / chain / expiry / memo validation -/

def SUPPORTED_TOKENS : List String :=
  ["USDC", "USDT", "DAI", "ETH", "MATIC", "BNB", "SOL", "BTC"]

def is_valid_token (token : String) : Bool := SUPPORTED_TOKENS.contains (py_upper token)

def validate_token (token : String) : Except PBError Unit :=
  if is_valid_token token then .ok ()
  else .error ⟨"PB_LINK_003", "Unsupported token: " ++ token, false⟩

def SUPPORTED_CHAIN_IDS : List ChainVal :=
  [.num 1, .num 137, .num 8453, .num 42161, .num 10, .num 56,
   .str "solana", .str "bitcoin"]

def is_valid_chain_id (chain_id : ChainVal) : Bool := SUPPORTED_CHAIN_IDS.contains chain_id

def chain_val_str : ChainVal → String
  | .num n => int_str n
  | .str s => s

def validate_chain_id (chain_id : ChainVal) : Except PBError Unit :=
  if is_valid_chain_id chain_id then .ok ()
  else .error ⟨"PB_LINK_004", "Unsupported chain: " ++ chain_val_str chain_id, false⟩

/-- validation.is_valid_expiry_hours (`MAX_EXPIRY_HOURS = 168`). -/
def is_valid_expiry_hours (hours : Int) : Bool := 1 ≤ hours && hours ≤ 168

def validate_expiry_hours (hours : Int) : Except PBError Unit :=
  if is_valid_expiry_hours hours then .ok ()
  else .error ⟨"PB_LINK_008", "Expiry hours must be between 1 and 168", false⟩

/-- validation.is_expired: `int(time.time() * 1000) > expiry_timestamp`. -/
def is_expired (now_ms expiry_timestamp : Int) : Bool := expiry_timestamp < now_ms

/-- validation.is_valid_memo (`MAX_MEMO_LENGTH = 256`; Python `len` counts
code points, as does `String.data.length`). -/
def is_valid_memo (memo : String) : Bool := memo.data.length ≤ 256

def validate_memo (memo : String) : Except PBError Unit :=
  if is_valid_memo memo then .ok ()
  else .error ⟨"PB_VALID_003", "Memo must not exceed 256 characters", false⟩

/-! ## modules/links.py — payment links

A payment-link URL is `base ++ "?" ++ urlencode(query)`.  Python's
`urlencode` / `parse_qs` pair is a bijection on key/value strings
(percent-encoding on the way out, decoding on the way back), so the model
keeps the query as the ordered key/value list itself; `parse_qs`'s default
`keep_blank_values=False` (a blank value is dropped) is reflected in
`q_find`, which only returns a pair whose value is non-empty. -/

structure Url where
  base : String
  query : List (String × String)
deriving DecidableEq, Repr

/-- `parse_qs(...).get(k, [None])[0]` under `keep_blank_values=False`. -/
def q_find : List (String × String) → String → Option String
  | [], _ => none
  | kv :: rest, k => if kv.1 = k ∧ kv.2 ≠ "" then some kv.2 else q_find rest k

/-- types.PaymentLinkParams.  (`webhook_url` and `metadata` never reach the
URL or the signature; they are carried for completeness.) -/
structure PaymentLinkParams where
  to_addr : String
  amount : String
  token : Option String := some "USDC"
  chain : Option ChainVal := none
  expiry_hours : Option Int := some 24
  memo : Option String := none
  order_id : Option String := none
  callback_url : Option String := none
  webhook_url : Option String := none
  allowed_chains : Option (List ChainVal) := none
  allowed_tokens : Option (List String) := none
deriving DecidableEq, Repr

structure PaymentLink where
  url : Url
  short_url : String
  params : PaymentLinkParams
  signature : String
  expires_at : Int
  created_at : Int
  payment_id : String
deriving DecidableEq, Repr

structure LinkVerificationResult where
  valid : Bool
  expired : Bool
  tampered_fields : List String
  params : Option PaymentLinkParams := none
  error : Option String := none
  homoglyph_detected : Option Bool := none
  homoglyph_details : Option HomoglyphDetails := none
deriving DecidableEq, Repr

/-- The canonical payment-link signing string.  The Python code sorts the
five normalized keys; for the fixed key set
`{amount, expiry, memo, to, token}` the sorted order is exactly
`amount, expiry, memo, to, token`, which is inlined here. -/
def link_canonical (to_a amount token : String) (expiry : Int) (memo : Option String) : String :=
  "amount=" ++ amount ++ "&expiry=" ++ int_str expiry ++ "&memo=" ++ memo.getD "" ++
    "&to=" ++ py_lower to_a ++ "&token=" ++ py_upper token

/-- PaymentLinkModule._generate_signature: SHA-256 of the canonical string
concatenated with the API secret, truncated to 16 hex characters
(`self._simple_hash(data_to_sign + self._api_secret)[:16]`). -/
def pl_signature (api_secret to_a amount token : String) (expiry : Int)
    (memo : Option String) : String :=
  str_take (sha256 (link_canonical to_a amount token expiry memo ++ api_secret)) 16

/-- crypto.generate_payment_link_signature: the truncated HMAC-SHA256 of the
same canonical string, keyed by the secret. -/
def generate_payment_link_signature (to_a amount token : String) (expiry : Int)
    (secret : String) (memo : Option String) : String :=
  hmac_sign_short (link_canonical to_a amount token expiry memo) secret

/-- An optional query pair included only when the value is truthy
(`if params.memo: query_params["memo"] = params.memo`). -/
def opt_str_pair (k : String) (o : Option String) : List (String × String) :=
  match o with
  | some v => if v = "" then [] else [(k, v)]
  | none => []

/-- An optional query pair from a mapped optional value. -/
def opt_map_pair {α : Type} (k : String) (o : Option α) (f : α → String) :
    List (String × String) :=
  match o with
  | some v => [(k, f v)]
  | none => []

/-- An optional comma-joined list pair, included only when the list is truthy
(non-`None` and non-empty). -/
def opt_list_pair {α : Type} (k : String) (o : Option (List α)) (f : α → String) :
    List (String × String) :=
  match o with
  | some [] => []
  | some l => [(k, String.intercalate "," (l.map f))]
  | none => []

def PAYMENT_LINK_BASE_URL : String := "https://app.protocolbanks.com/pay"

/-- PaymentLinkModule._build_url (the dict insertion order is the
`urlencode` order). -/
def pl_build_url (params : PaymentLinkParams) (token : String) (expiry : Int)
    (signature payment_id : String) : Url :=
  { base := PAYMENT_LINK_BASE_URL
    query :=
      [("to", params.to_addr), ("amount", params.amount), ("token", token),
       ("exp", int_str expiry), ("sig", signature), ("id", payment_id)] ++
      opt_map_pair "chain" params.chain chain_val_str ++
      opt_str_pair "memo" params.memo ++
      opt_str_pair "orderId" params.order_id ++
      opt_str_pair "callback" params.callback_url ++
      opt_list_pair "chains" params.allowed_chains chain_val_str ++
      opt_list_pair "tokens" params.allowed_tokens id }

/-- Truthiness of `Optional[str]` (Python `if params.token:`). -/
def py_truthy_str (o : Option String) : Bool :=
  match o with
  | some s => s ≠ ""
  | none => false

def except_list {α : Type} (f : α → Except PBError Unit) : List α → Except PBError Unit
  | [] => .ok ()
  | x :: xs => do
      f x
      except_list f xs

/-- PaymentLinkModule._validate_params. -/
def pl_validate_params (params : PaymentLinkParams) : Except PBError Unit := do
  validate_address params.to_addr params.chain
  validate_amount params.amount
  if py_truthy_str params.token then validate_token (params.token.getD "") else pure ()
  match params.chain with
  | some c => validate_chain_id c
  | none => pure ()
  match params.expiry_hours with
  | some h => validate_expiry_hours h
  | none => pure ()
  if py_truthy_str params.memo then validate_memo (params.memo.getD "") else pure ()
  match params.allowed_chains with
  | some cs => except_list validate_chain_id cs
  | none => pure ()
  match params.allowed_tokens with
  | some ts => except_list validate_token ts
  | none => pure ()

/-- Python `uuid.replace("-", "")`. -/
def strip_dashes (s : String) : String := String.mk (s.data.filter (fun c => c ≠ '-'))

/-- PaymentLinkModule.generate.  `now_ms` is `int(datetime.now().timestamp()
* 1000)` and `uuid` the fresh UUID4, both passed explicitly. -/
def pl_generate (api_secret : String) (params : PaymentLinkParams) (now_ms : Int)
    (uuid : String) : Except PBError PaymentLink := do
  pl_validate_params params
  let token := py_or_str params.token "USDC"
  let expiry_hours := py_or_int params.expiry_hours 24
  let expiry_ms := now_ms + expiry_hours * 60 * 60 * 1000
  let payment_id := "pay_" ++ strip_dashes uuid
  let signature := pl_signature api_secret params.to_addr params.amount token expiry_ms params.memo
  let url := pl_build_url params token expiry_ms signature payment_id
  .ok
    { url := url
      short_url := "https://app.protocolbanks.com/p/" ++
        String.mk ((payment_id.data.drop 4).take 8)
      params :=
        { to_addr := params.to_addr, amount := params.amount, token := some token
          chain := params.chain, expiry_hours := some expiry_hours
          memo := params.memo, order_id := params.order_id
          callback_url := params.callback_url, webhook_url := params.webhook_url
          allowed_chains := params.allowed_chains
          allowed_tokens := params.allowed_tokens }
      signature := signature
      expires_at := expiry_ms
      created_at := now_ms
      payment_id := payment_id }

/-- The `chain` field of `_parse_url`: an integer when `int()` accepts it,
else the raw string. -/
def parse_chain_field (q : List (String × String)) : Option ChainVal :=
  match q_find q "chain" with
  | some cs =>
      match py_int cs with
      | some n => some (.num n)
      | none => some (.str cs)
  | none => none

/-- The `allowed_chains` field of `_parse_url` (comma-separated). -/
def parse_allowed_chains_field (q : List (String × String)) : Option (List ChainVal) :=
  match q_find q "chains" with
  | some cs =>
      some ((char_split ',' cs.data).map (fun part =>
        match py_int (String.mk part) with
        | some n => ChainVal.num n
        | none => ChainVal.str (String.mk part)))
  | none => none

/-- The `allowed_tokens` field of `_parse_url` (comma-separated). -/
def parse_allowed_tokens_field (q : List (String × String)) : Option (List String) :=
  match q_find q "tokens" with
  | some ts => some ((char_split ',' ts.data).map String.mk)
  | none => none

/-- PaymentLinkModule._parse_url.  `now_ms` is the `datetime.now()` read used
to recompute `expiry_hours`. -/
def pl_parse_url (url : Url) (now_ms : Int) :
    Option (PaymentLinkParams × String × Int) := do
  let to_a ← q_find url.query "to"
  let amount ← q_find url.query "amount"
  let signature ← q_find url.query "sig"
  let expiry_str ← q_find url.query "exp"
  let expiry ← py_int expiry_str
  let token := (q_find url.query "token").getD "USDC"
  some
    ({ to_addr := to_a, amount := amount, token := some token
       chain := parse_chain_field url.query
       expiry_hours := some (max 1 ((expiry - now_ms).fdiv (60 * 60 * 1000)))
       memo := q_find url.query "memo", order_id := q_find url.query "orderId"
       callback_url := q_find url.query "callback"
       allowed_chains := parse_allowed_chains_field url.query
       allowed_tokens := parse_allowed_tokens_field url.query },
     signature, expiry)

/-- PaymentLinkModule.verify.  `now_ms` is the clock read used by both
`is_expired` and `_parse_url`. -/
def pl_verify (api_secret : String) (url : Url) (now_ms : Int) :
    LinkVerificationResult :=
  match pl_parse_url url now_ms with
  | none =>
      { valid := false, expired := false, tampered_fields := []
        error := some "Invalid payment link URL format" }
  | some (params, signature, expiry) =>
      match detect_homoglyphs params.to_addr with
      | some det =>
          { valid := false, expired := false, tampered_fields := ["to"]
            params := some params
            error := some "Homoglyph attack detected in address"
            homoglyph_detected := some true, homoglyph_details := some det }
      | none =>
          let expired := is_expired now_ms expiry
          let expected :=
            pl_signature api_secret params.to_addr params.amount
              (py_or_str params.token "USDC") expiry params.memo
          let signature_valid := signature == expected
          { valid := signature_valid && !expired
            expired := expired
            tampered_fields := if signature_valid then [] else ["signature"]
            params := some params
            error :=
              if expired then some "Payment link has expired"
              else if !signature_valid then some "Payment link signature is invalid"
              else none }

/-! ## modules/webhooks.py — webhook authentication

`json.loads` is modelled by a small JSON reader over the payload characters.
It covers objects, arrays, strings (with the standard escapes), integers and
the three literals — every payload the verified code constructs or the tests
exercise.  JSON fractional/exponent numbers and ISO-8601 string timestamps
are treated as unparseable; Python accepts some of those, so theorems about
successful parses are stated with a `webhook_parse … = .ok …` hypothesis,
which keeps them inside the modelled fragment. -/

inductive PyJson where
  | jnull
  | jbool (b : Bool)
  | jnum (n : Int)
  | jstr (s : String)
  | jarr (elems : List PyJson)
  | jobj (fields : List (String × PyJson))

/-- `\x7b`, written out to keep brace characters out of the source text. -/
def obrace : Char := Char.ofNat 123

/-- `\x7d`. -/
def cbrace : Char := Char.ofNat 125

def json_ws (c : Char) : Bool := c = ' ' ∨ c = '\n' ∨ c = '\t' ∨ c = '\r'

def skip_ws (l : List Char) : List Char := l.dropWhile json_ws

def char_hex (c : Char) : Option Nat :=
  match char_digit c with
  | some d => some d
  | none =>
      if 97 ≤ c.toNat ∧ c.toNat ≤ 102 then some (c.toNat - 87)
      else if 65 ≤ c.toNat ∧ c.toNat ≤ 70 then some (c.toNat - 55)
      else none

/-- JSON string body after the opening quote; returns the content and the
remainder after the closing quote. -/
def json_str_chars : List Char → Option (List Char × List Char)
  | [] => none
  | '"' :: rest => some ([], rest)
  | '\\' :: 'u' :: h1 :: h2 :: h3 :: h4 :: rest =>
      (match char_hex h1, char_hex h2, char_hex h3, char_hex h4 with
       | some d1, some d2, some d3, some d4 =>
           (json_str_chars rest).map (fun p =>
             (Char.ofNat (d1 * 4096 + d2 * 256 + d3 * 16 + d4) :: p.1, p.2))
       | _, _, _, _ => none)
  | '\\' :: e :: rest =>
      (if e = '"' ∨ e = '\\' ∨ e = '/' then some e
       else if e = 'n' then some '\n'
       else if e = 't' then some '\t'
       else if e = 'r' then some '\r'
       else if e = 'b' then some (Char.ofNat 8)
       else if e = 'f' then some (Char.ofNat 12)
       else none).bind
        (fun c => (json_str_chars rest).map
          (fun (p : List Char × List Char) => (c :: p.1, p.2)))
  | c :: rest => (json_str_chars rest).map (fun p => (c :: p.1, p.2))

mutual

def json_val (fuel : Nat) (l : List Char) : Option (PyJson × List Char) :=
  match fuel with
  | 0 => none
  | fuel + 1 =>
      match skip_ws l with
      | [] => none
      | 'n' :: 'u' :: 'l' :: 'l' :: rest => some (.jnull, rest)
      | 't' :: 'r' :: 'u' :: 'e' :: rest => some (.jbool true, rest)
      | 'f' :: 'a' :: 'l' :: 's' :: 'e' :: rest => some (.jbool false, rest)
      | '"' :: rest => (json_str_chars rest).map (fun p => (.jstr (String.mk p.1), p.2))
      | '[' :: rest =>
          (match skip_ws rest with
           | ']' :: rest2 => some (.jarr [], rest2)
           | _ => json_items fuel rest [])
      | '-' :: rest =>
          (match span_digits rest with
           | ([], _) => none
           | (ds, rest2) => some (.jnum (-(digits_val ds : Int)), rest2))
      | c :: rest =>
          if c = obrace then
            match skip_ws rest with
            | c2 :: rest2 =>
                if c2 = cbrace then some (.jobj [], rest2)
                else json_fields fuel (c2 :: rest2) []
            | [] => none
          else
            match span_digits (c :: rest) with
            | ([], _) => none
            | (ds, rest2) => some (.jnum (digits_val ds : Int), rest2)

def json_items (fuel : Nat) (l : List Char) (acc : List PyJson) :
    Option (PyJson × List Char) :=
  match fuel with
  | 0 => none
  | fuel + 1 =>
      match json_val fuel l with
      | none => none
      | some (v, rest) =>
          match skip_ws rest with
          | ',' :: rest2 => json_items fuel rest2 (acc ++ [v])
          | ']' :: rest2 => some (.jarr (acc ++ [v]), rest2)
          | _ => none

def json_fields (fuel : Nat) (l : List Char) (acc : List (String × PyJson)) :
    Option (PyJson × List Char) :=
  match fuel with
  | 0 => none
  | fuel + 1 =>
      match skip_ws l with
      | '"' :: rest =>
          match json_str_chars rest with
          | none => none
          | some (k, rest2) =>
              match skip_ws rest2 with
              | ':' :: rest3 =>
                  (match json_val fuel rest3 with
                   | none => none
                   | some (v, rest4) =>
                       match skip_ws rest4 with
                       | ',' :: rest5 => json_fields fuel rest5 (acc ++ [(String.mk k, v)])
                       | c :: rest5 =>
                           if c = cbrace then some (.jobj (acc ++ [(String.mk k, v)]), rest5)
                           else none
                       | [] => none)
              | _ => none
      | _ => none

end

/-- Python `json.loads` over the modelled JSON fragment. -/
def py_json_loads (s : String) : Option PyJson :=
  match json_val (s.data.length + 1) s.data with
  | some (v, rest) => if skip_ws rest = [] then some v else none
  | none => none

/-- Dict lookup; JSON objects with duplicate keys keep the last binding. -/
def obj_get : PyJson → String → Option PyJson
  | .jobj fields, k => (fields.reverse.find? (fun kv => kv.1 = k)).map (fun kv => kv.2)
  | _, _ => none

/-- Python truthiness of a JSON value (`not data.get(...)`). -/
def py_truthy : Option PyJson → Bool
  | none => false
  | some .jnull => false
  | some (.jbool b) => b
  | some (.jnum n) => n ≠ 0
  | some (.jstr s) => s ≠ ""
  | some (.jarr []) => false
  | some (.jarr _) => true
  | some (.jobj []) => false
  | some (.jobj _) => true

def SUPPORTED_EVENT_TYPES : List String :=
  ["payment.created", "payment.completed", "payment.failed", "payment.expired",
   "batch.created", "batch.processing", "batch.completed", "batch.failed",
   "x402.created", "x402.signed", "x402.executed", "x402.failed", "x402.expired"]

def is_valid_event_type (event_type : String) : Bool :=
  SUPPORTED_EVENT_TYPES.contains event_type

/-- types.WebhookEvent.  `timestamp = none` models the `datetime.now()`
fallback taken when the payload carries no usable timestamp. -/
structure WebhookEvent where
  id : String
  type : String
  timestamp : Option Int
  data : PyJson
  signature : String

structure WebhookVerificationResult where
  valid : Bool
  event : Option WebhookEvent := none
  error : Option String := none
  timestamp_valid : Option Bool := none

/-- WebhookModule.parse.  Failures that Python surfaces as
`pydantic.ValidationError` (wrong field type) or `OverflowError`
(`datetime.fromtimestamp` out of range, bound 253402300799 = year 9999)
are modelled as errors with distinguishing codes; `verify` catches them all
alike. -/
def webhook_parse (payload : String) : Except PBError WebhookEvent := do
  match py_json_loads payload with
  | none => .error ⟨"PB_VALID_002", "Invalid webhook payload JSON", false⟩
  | some data =>
      if ¬py_truthy (obj_get data "id") ∨ ¬py_truthy (obj_get data "type") then
        .error ⟨"PB_VALID_001", "Webhook payload missing required fields (id, type)", false⟩
      else
        match obj_get data "type" with
        | some (.jstr ty) =>
            if ¬is_valid_event_type ty then
              .error ⟨"PB_VALID_002", "Unknown webhook event type: " ++ ty, false⟩
            else do
              let id ←
                match obj_get data "id" with
                | some (.jstr s) => pure s
                | _ => .error ⟨"PYDANTIC_VALIDATION", "id must be a string", false⟩
              let timestamp ←
                match obj_get data "timestamp" with
                | some (.jnum n) =>
                    if 0 ≤ n ∧ n ≤ 253402300799 then pure (some n)
                    else .error ⟨"OVERFLOW", "timestamp out of fromtimestamp range", false⟩
                | some (.jbool b) => pure (some (if b then 1 else 0))
                | some (.jstr _) =>
                    .error ⟨"ISO_TIMESTAMP", "ISO-8601 timestamps not modelled", false⟩
                | _ => pure none
              let d ←
                match obj_get data "data" with
                | some (.jobj fields) => pure (PyJson.jobj fields)
                | none => pure (PyJson.jobj [])
                | _ => .error ⟨"PYDANTIC_VALIDATION", "data must be an object", false⟩
              let sig ←
                match obj_get data "signature" with
                | some (.jstr s) => pure s
                | none => pure ""
                | _ => .error ⟨"PYDANTIC_VALIDATION", "signature must be a string", false⟩
              .ok ⟨id, ty, timestamp, d, sig⟩
        | _ => .error ⟨"PB_VALID_002", "Unknown webhook event type", false⟩

/-- Rejoin the tail of a `split("=", ...)` as Python `split(sep, maxsplit=1)`
would leave it. -/
def join_eq : List String → String
  | [] => ""
  | [s] => s
  | s :: rest => s ++ "=" ++ join_eq rest

/-- WebhookModule._parse_signature_header body: scan `t=`/`v1=` parts.  A
part without `=` is skipped; a `t=` part whose value `int()` rejects aborts
the whole parse (the Python `except` returns `None`). -/
def header_parts : List (List Char) → Int → String → Option (Int × String)
  | [], t, sig => some (t, sig)
  | part :: rest, t, sig =>
      match char_split '=' part with
      | [] => header_parts rest t sig
      | [_] => header_parts rest t sig
      | k :: vs =>
          let v := join_eq (vs.map String.mk)
          if String.mk k = "t" then
            match py_int v with
            | some n => header_parts rest n sig
            | none => none
          else if String.mk k = "v1" then header_parts rest t v
          else header_parts rest t sig

/-- WebhookModule._parse_signature_header: `t=<timestamp>,v1=<signature>`. -/
def parse_signature_header (header : String) : Option (Int × String) :=
  match header_parts (char_split ',' header.data) 0 "" with
  | some (t, sig) => if t = 0 ∨ sig = "" then none else some (t, sig)
  | none => none

/-- WebhookModule.sign.  `now` is `int(time.time())`, used when the caller's
timestamp is falsy (`ts = timestamp or int(time.time())`). -/
def webhook_sign (payload secret : String) (timestamp : Option Int) (now : Int) : String :=
  let ts := py_or_int timestamp now
  "t=" ++ int_str ts ++ ",v1=" ++ hmac_sign (int_str ts ++ "." ++ payload) secret

def DEFAULT_TIMESTAMP_TOLERANCE : Int := 300

/-- WebhookModule.verify.  `now` is `int(time.time())`. -/
def webhook_verify (payload signature_header secret : String) (tolerance : Int)
    (now : Int) : WebhookVerificationResult :=
  match parse_signature_header signature_header with
  | none => { valid := false, error := some "Invalid signature format" }
  | some (timestamp, sig) =>
      if ((now - timestamp).natAbs : Int) ≤ tolerance then
        let expected := hmac_sign (int_str timestamp ++ "." ++ payload) secret
        if sig == expected then
          match webhook_parse payload with
          | .ok event =>
              { valid := true, event := some event, timestamp_valid := some true }
          | .error e =>
              -- the outer `except Exception` returns `valid=False, error=str(e)`
              { valid := false, error := some e.message }
        else
          { valid := false, error := some "Invalid webhook signature"
            timestamp_valid := some true }
      else
        { valid := false, error := some "Webhook timestamp is outside tolerance window"
          timestamp_valid := some false }

/-! ## modules/batch.py — batch recipient validation -/

structure BatchRecipient where
  address : String
  amount : String
  token : String
  memo : Option String := none
  order_id : Option String := none
deriving DecidableEq, Repr

structure BatchValidationError where
  index : Nat
  address : String
  errors : List String
deriving DecidableEq, Repr

/-- The per-recipient checks of BatchModule.validate, in source order:
address (required / homoglyph / format), amount, token, memo length. -/
def batch_recipient_errors (r : BatchRecipient) : List String :=
  (if r.address = "" then ["Address is required"]
   else
     match detect_homoglyphs r.address with
     | some _ => ["Address contains suspicious characters (possible homoglyph attack)"]
     | none => if ¬is_valid_address r.address none then ["Invalid address format"] else []) ++
  (if r.amount = "" then ["Amount is required"]
   else if ¬is_valid_amount r.amount then ["Invalid amount (must be positive, max 1 billion)"]
   else []) ++
  (if r.token = "" then ["Token is required"]
   else if ¬is_valid_token r.token then ["Unsupported token: " ++ r.token]
   else []) ++
  (match r.memo with
   | some m =>
       if m ≠ "" ∧ m.data.length > 256 then ["Memo exceeds maximum length of 256 characters"]
       else []
   | none => [])

/-- Append index `i` to the bucket of key `k` (Python dict insertion order). -/
def add_count (m : List (String × List Nat)) (k : String) (i : Nat) :
    List (String × List Nat) :=
  if m.any (fun kv => kv.1 = k) then
    m.map (fun kv => if kv.1 = k then (kv.1, kv.2 ++ [i]) else kv)
  else m ++ [(k, [i])]

/-- The `address_counts` map: lower-cased address to the indices using it. -/
def address_counts (recipients : List BatchRecipient) : List (String × List Nat) :=
  recipients.enum.foldl
    (fun m ir => if ir.2.address ≠ "" then add_count m (py_lower ir.2.address) ir.1 else m)
    []

def dup_msg (n : Nat) : String := "Duplicate address (appears " ++ nat_str n ++ " times)"

/-- Attach one duplicate warning for index `i`: appended to the existing error
entry for that index if one exists, else a new warning-only entry. -/
def add_dup_msg (errs : List BatchValidationError) (address : String) (n i : Nat) :
    List BatchValidationError :=
  if errs.any (fun e => e.index = i) then
    errs.map (fun e => if e.index = i then ⟨e.index, e.address, e.errors ++ [dup_msg n]⟩ else e)
  else errs ++ [⟨i, address, [dup_msg n]⟩]

def apply_dups (errs : List BatchValidationError) (counts : List (String × List Nat)) :
    List BatchValidationError :=
  counts.foldl
    (fun es kv =>
      if kv.2.length > 1 then kv.2.foldl (fun es2 i => add_dup_msg es2 kv.1 kv.2.length i) es
      else es)
    errs

/-- Stable insertion placing `e` after entries with the same index
(`sorted` is stable; indices are in fact unique here). -/
def insert_by_index (e : BatchValidationError) :
    List BatchValidationError → List BatchValidationError
  | [] => [e]
  | x :: xs => if e.index < x.index then e :: x :: xs else x :: insert_by_index e xs

def sort_by_index (l : List BatchValidationError) : List BatchValidationError :=
  l.foldl (fun acc e => insert_by_index e acc) []

/-- BatchModule.validate (`MAX_BATCH_SIZE = 500`). -/
def batch_validate (recipients : List BatchRecipient) :
    Except PBError (List BatchValidationError) :=
  if recipients.length > 500 then
    .error ⟨"PB_BATCH_001",
      "Batch size " ++ nat_str recipients.length ++ " exceeds maximum of 500", false⟩
  else if recipients.length = 0 then
    .error ⟨"PB_BATCH_002", "Batch cannot be empty", false⟩
  else
    let errs := recipients.enum.foldl
      (fun es ir =>
        match batch_recipient_errors ir.2 with
        | [] => es
        | rerrs => es ++ [⟨ir.1, ir.2.address, rerrs⟩])
      []
    .ok (sort_by_index (apply_dups errs (address_counts recipients)))

/-! ## modules/x402.py — gasless authorization lifecycle -/

inductive X402Status where
  | pending | signed | submitted | executed | failed | expired | cancelled
deriving DecidableEq, Repr

structure EIP712Domain where
  name : String
  version : String
  chain_id : Int
  verifying_contract : String
deriving DecidableEq, Repr

/-- types.TransferWithAuthorizationMessage (`from_address` serializes as
`from`, a Lean keyword). -/
structure TransferWithAuthorizationMessage where
  from_address : String
  to_addr : String
  value : String
  valid_after : Int
  valid_before : Int
  nonce : String
deriving DecidableEq, Repr

def TRANSFER_WITH_AUTHORIZATION_TYPES : List (String × List (String × String)) :=
  [("TransferWithAuthorization",
    [("from", "address"), ("to", "address"), ("value", "uint256"),
     ("validAfter", "uint256"), ("validBefore", "uint256"), ("nonce", "bytes32")])]

/-- types.X402Authorization.  `created_at`/`expires_at` are epoch seconds
(`expires_at = datetime.fromtimestamp(valid_before)`). -/
structure X402Authorization where
  id : String
  domain : EIP712Domain
  types : List (String × List (String × String))
  message : TransferWithAuthorizationMessage
  status : X402Status
  transaction_hash : Option String := none
  created_at : Int
  expires_at : Int
  signature : Option String := none
deriving DecidableEq, Repr

structure X402AuthorizationParams where
  to_addr : String
  amount : String
  token : String
  chain_id : Int
  valid_for : Option Int := some 3600
deriving DecidableEq, Repr

/-! config.py tables (chains 1, 137, 8453, 42161, 10, 56; the on-chain
addresses are copied verbatim from the source). -/

structure TokenConfig where
  symbol : String
  name : String
  address : String
  decimals : Nat
  supports_gasless : Bool
deriving DecidableEq, Repr

def USDC_ADDRESSES : Int → Option String
  | 1 => some "0xA0b86991c6218b36c1d19D4a2e9Eb0cE3606eB48"
  | 137 => some "0x3c499c542cEF5E3811e1192ce70d8cC03d5c3359"
  | 8453 => some "0x833589fCD6eDb6E08f4c7C32D4f71b54bdA02913"
  | 42161 => some "0xaf88d065e77c8cC2239327C5EDb3A432268e5831"
  | 10 => some "0x0b2C639c533813f4Aa9D7837CAf62653d097Ff85"
  | 56 => some "0x8AC76a51cc950d9822D68b83fE1Ad97B32Cd580d"
  | _ => none

def chain_tokens : Int → List TokenConfig
  | 1 =>
      [⟨"USDC", "USD Coin", "0xA0b86991c6218b36c1d19D4a2e9Eb0cE3606eB48", 6, true⟩,
       ⟨"USDT", "Tether USD", "0xdAC17F958D2ee523a2206206994597C13D831ec7", 6, false⟩,
       ⟨"DAI", "Dai Stablecoin", "0x6B175474E89094C44Da98b954EescdeCB5BE3830", 18, true⟩,
       ⟨"ETH", "Ethereum", "native", 18, false⟩]
  | 137 =>
      [⟨"USDC", "USD Coin", "0x3c499c542cEF5E3811e1192ce70d8cC03d5c3359", 6, true⟩,
       ⟨"USDT", "Tether USD", "0xc2132D05D31c914a87C6611C10748AEb04B58e8F", 6, false⟩,
       ⟨"DAI", "Dai Stablecoin", "0x8f3Cf7ad23Cd3CaDbD9735AFf958023239c6A063", 18, true⟩,
       ⟨"MATIC", "Polygon", "native", 18, false⟩]
  | 8453 =>
      [⟨"USDC", "USD Coin", "0x833589fCD6eDb6E08f4c7C32D4f71b54bdA02913", 6, true⟩,
       ⟨"USDT", "Tether USD", "0xfde4C96c8593536E31F229EA8f37b2ADa2699bb2", 6, false⟩,
       ⟨"ETH", "Ethereum", "native", 18, false⟩]
  | 42161 =>
      [⟨"USDC", "USD Coin", "0xaf88d065e77c8cC2239327C5EDb3A432268e5831", 6, true⟩,
       ⟨"USDT", "Tether USD", "0xFd086bC7CD5C481DCC9C85ebE478A1C0b69FCbb9", 6, false⟩,
       ⟨"DAI", "Dai Stablecoin", "0xDA10009cBd5D07dd0CeCc66161FC93D7c9000da1", 18, true⟩,
       ⟨"ETH", "Ethereum", "native", 18, false⟩]
  | 10 =>
      [⟨"USDC", "USD Coin", "0x0b2C639c533813f4Aa9D7837CAf62653d097Ff85", 6, true⟩,
       ⟨"USDT", "Tether USD", "0x94b008aA00579c1307B0EF2c499aD98a8ce58e58", 6, false⟩,
       ⟨"DAI", "Dai Stablecoin", "0xDA10009cBd5D07dd0CeCc66161FC93D7c9000da1", 18, true⟩,
       ⟨"ETH", "Ethereum", "native", 18, false⟩]
  | 56 =>
      [⟨"USDC", "USD Coin", "0x8AC76a51cc950d9822D68b83fE1Ad97B32Cd580d", 18, false⟩,
       ⟨"USDT", "Tether USD", "0x55d398326f99059fF775485246999027B3197955", 18, false⟩,
       ⟨"DAI", "Dai Stablecoin", "0x1AF3F329e8BE154074D8769D1FFa4eE058B1DBc3", 18, false⟩,
       ⟨"BNB", "BNB", "native", 18, false⟩]
  | _ => []

/-- config.get_token_config (restricted to the numeric chains x402 uses). -/
def get_token_config (chain_id : Int) (token : String) : Option TokenConfig :=
  (chain_tokens chain_id).find? (fun t => t.symbol = token)

/-- config.parse_amount: `str(int(float(amount) * 10 ** decimals))`, with the
exact-decimal reading of `float` (see `py_float`); truncation is toward zero
like Python `int()`. -/
def parse_amount (amount : String) (decimals : Nat) : String :=
  match py_float amount with
  | none => "0"
  | some d =>
      let e := d.exp + (decimals : Int)
      if 0 ≤ e then int_str (d.num * 10 ^ e.toNat)
      else int_str (Int.tdiv d.num (10 ^ (-e).toNat))

def X402_SUPPORTED_CHAINS : List Int := [1, 137, 8453, 42161, 10]

def X402_SUPPORTED_TOKENS : List String := ["USDC", "DAI"]

def x402_is_chain_supported (chain_id : Int) : Bool :=
  X402_SUPPORTED_CHAINS.contains chain_id

def x402_is_token_supported (chain_id : Int) (token : String) : Bool :=
  x402_is_chain_supported chain_id &&
    (match get_token_config chain_id token with
     | some cfg => cfg.supports_gasless
     | none => false)

def TOKEN_NAMES : String → Option String
  | "USDC" => some "USD Coin"
  | "USDT" => some "Tether USD"
  | "DAI" => some "Dai Stablecoin"
  | "ETH" => some "Ethereum"
  | "MATIC" => some "Polygon"
  | "BNB" => some "BNB"
  | "SOL" => some "Solana"
  | "BTC" => some "Bitcoin"
  | _ => none

def DEFAULT_VALIDITY_SECONDS : Int := 3600

def MAX_VALIDITY_SECONDS : Int := 86400

/-- X402Module._validate_params. -/
def x402_validate_params (params : X402AuthorizationParams) : Except PBError Unit := do
  validate_address params.to_addr (some (.num params.chain_id))
  validate_amount params.amount
  validate_token params.token
  match params.valid_for with
  | some vf =>
      if vf < 60 ∨ vf > MAX_VALIDITY_SECONDS then
        .error ⟨"PB_VALID_003", "valid_for must be between 60 and 86400 seconds", false⟩
      else pure ()
  | none => pure ()

/-- X402Module._get_token_address. -/
def x402_get_token_address (chain_id : Int) (token : String) : String :=
  if token = "USDC" then (USDC_ADDRESSES chain_id).getD ""
  else
    match get_token_config chain_id token with
    | some cfg => cfg.address
    | none => ""

/-- X402Module._is_valid_signature: `^0x[a-fA-F0-9]{130}$`. -/
def x402_is_valid_signature (signature : String) : Bool :=
  match signature.data with
  | '0' :: 'x' :: rest => rest.length == 130 && rest.all is_hex_digit
  | _ => false

/-- The in-memory `self._authorizations` store. -/
abbrev X402Store : Type := List (String × X402Authorization)

def store_get (store : X402Store) (k : String) : Option X402Authorization :=
  (store.find? (fun kv => kv.1 = k)).map (fun kv => kv.2)

def store_set (store : X402Store) (k : String) (v : X402Authorization) : X402Store :=
  if store.any (fun kv => kv.1 = k) then
    store.map (fun kv => if kv.1 = k then (kv.1, v) else kv)
  else store ++ [(k, v)]

/-- X402Module._is_expired: `datetime.now() > auth.expires_at`. -/
def x402_is_expired (now : Int) (auth : X402Authorization) : Bool :=
  auth.expires_at < now

/-- X402Module.create_authorization.  `now` is `int(time.time())`, `nonce`
the fresh 32-byte nonce and `uuid` the fresh UUID4.  The best-effort backend
registration (its failure is swallowed) has no observable effect and is not
modelled. -/
def x402_create_authorization (params : X402AuthorizationParams) (now : Int)
    (nonce uuid : String) (store : X402Store) :
    Except PBError X402Authorization × X402Store :=
  match x402_validate_params params with
  | .error e => (.error e, store)
  | .ok () =>
      if ¬x402_is_chain_supported params.chain_id then
        (.error ⟨"PB_X402_001",
          "Chain " ++ int_str params.chain_id ++ " does not support x402 gasless payments",
          false⟩, store)
      else if ¬x402_is_token_supported params.chain_id params.token then
        (.error ⟨"PB_X402_002",
          "Token " ++ params.token ++ " does not support x402 on chain " ++
            int_str params.chain_id, false⟩, store)
      else
        match get_token_config params.chain_id params.token with
        | none =>
            (.error ⟨"PB_X402_002",
              "Token " ++ params.token ++ " not found on chain " ++
                int_str params.chain_id, false⟩, store)
        | some cfg =>
            let valid_for := min (py_or_int params.valid_for DEFAULT_VALIDITY_SECONDS)
              MAX_VALIDITY_SECONDS
            let valid_before := now + valid_for
            let auth_id := "x402_" ++ strip_dashes uuid
            let auth : X402Authorization :=
              { id := auth_id
                domain :=
                  { name := (TOKEN_NAMES params.token).getD params.token
                    version := "2"
                    chain_id := params.chain_id
                    verifying_contract := x402_get_token_address params.chain_id params.token }
                types := TRANSFER_WITH_AUTHORIZATION_TYPES
                message :=
                  { from_address := ""
                    to_addr := params.to_addr
                    value := parse_amount params.amount cfg.decimals
                    valid_after := now
                    valid_before := valid_before
                    nonce := nonce }
                status := .pending
                created_at := now
                expires_at := valid_before }
            (.ok auth, store_set store auth_id auth)

/-- The relayer's `/x402/submit` response (`response.get("status",
"submitted")`, `response.get("transaction_hash")`). -/
structure RelayResponse where
  status : X402Status := .submitted
  transaction_hash : Option String := none
deriving DecidableEq, Repr

/-- X402Module.submit_signature.  `relay` is the outcome of the
`/x402/submit` HTTP call, passed explicitly; a relay failure is re-raised
after the local record is marked `failed`. -/
def x402_submit_signature (store : X402Store) (auth_id signature : String) (now : Int)
    (relay : Except PBError RelayResponse) :
    Except PBError X402Authorization × X402Store :=
  match store_get store auth_id with
  | none => (.error ⟨"PB_X402_003", "Authorization not found or expired", false⟩, store)
  | some auth =>
      if x402_is_expired now auth then
        (.error ⟨"PB_X402_003", "Authorization has expired", false⟩,
         store_set store auth_id { auth with status := .expired })
      else if ¬x402_is_valid_signature signature then
        (.error ⟨"PB_X402_004", "Invalid signature format", false⟩, store)
      else
        let signed := { auth with status := X402Status.signed, signature := some signature }
        match relay with
        | .ok resp =>
            let done :=
              { signed with
                status := resp.status
                transaction_hash := resp.transaction_hash }
            (.ok done, store_set store auth_id done)
        | .error e =>
            (.error e, store_set store auth_id { signed with status := X402Status.failed })

/-! ## Helper lemmas -/

theorem py_int_chars_neg_digits (cs : List Char) (hne : cs ≠ []) (n : Nat)
    (hp : parse_digits cs 0 = some n) :
    py_int_chars ('-' :: cs) = some (-(n : Int)) := by
  show (if cs = [] then none else (parse_digits cs 0).map (fun m => -(m : Int))) =
    some (-(n : Int))
  rw [if_neg hne, hp]
  rfl

theorem py_int_int_str (i : Int) : py_int (int_str i) = some i := by
  rw [py_int, int_str]
  show py_int_chars (int_chars i) = some i
  rw [int_chars]
  by_cases hi : i < 0
  · rw [if_pos hi, py_int_chars_neg_digits _ (nat_chars_ne_nil _) _ (parse_digits_nat_chars _)]
    congr 1
    omega
  · rw [if_neg hi, py_int_chars_of_digits (nat_chars i.natAbs) (nat_chars_ne_nil _)
      (nat_chars_digit _) i.natAbs (parse_digits_nat_chars _)]
    congr 1
    omega

theorem hex_char_ne_comma (d : Nat) : hex_char d ≠ ',' := by
  unfold hex_char
  split <;> decide

theorem hex_char_ne_eq_sign (d : Nat) : hex_char d ≠ '=' := by
  unfold hex_char
  split <;> decide

theorem mem_nat_chars (n : Nat) {c : Char} (hc : c ∈ nat_chars n) : ∃ d, c = hex_char d := by
  rw [nat_chars] at hc
  obtain ⟨d, _, rfl⟩ := List.mem_map.mp hc
  exact ⟨d, rfl⟩

theorem mem_int_chars (i : Int) {c : Char} (hc : c ∈ int_chars i) :
    c = '-' ∨ ∃ d, c = hex_char d := by
  rw [int_chars] at hc
  by_cases hi : i < 0
  · simp only [hi, if_true, List.mem_cons] at hc
    rcases hc with rfl | hc
    · exact Or.inl rfl
    · exact Or.inr (mem_nat_chars _ hc)
  · simp only [hi, if_false] at hc
    exact Or.inr (mem_nat_chars _ hc)

theorem int_chars_ne_comma (i : Int) {c : Char} (hc : c ∈ int_chars i) : c ≠ ',' := by
  rcases mem_int_chars i hc with rfl | ⟨d, rfl⟩
  · decide
  · exact hex_char_ne_comma d

theorem int_chars_ne_eq_sign (i : Int) {c : Char} (hc : c ∈ int_chars i) : c ≠ '=' := by
  rcases mem_int_chars i hc with rfl | ⟨d, rfl⟩
  · decide
  · exact hex_char_ne_eq_sign d

theorem int_chars_ne_nil (i : Int) : int_chars i ≠ [] := by
  rw [int_chars]
  by_cases hi : i < 0 <;> simp [hi, nat_chars_ne_nil]

theorem mem_bytes_hex {bs : List Nat} {c : Char} (hc : c ∈ bytes_hex bs) :
    ∃ d, c = hex_char d := by
  induction bs with
  | nil => simp [bytes_hex] at hc
  | cons b bs ih =>
      simp only [bytes_hex, List.foldr_cons, byte_hex, List.cons_append, List.nil_append,
        List.mem_cons] at hc
      rcases hc with rfl | rfl | hc
      · exact ⟨b / 16, rfl⟩
      · exact ⟨b % 16, rfl⟩
      · exact ih hc

/-- `char_split` never produces an empty list of parts. -/
theorem char_split_ne_nil (sep : Char) (l : List Char) : char_split sep l ≠ [] := by
  cases l with
  | nil => simp [char_split]
  | cons c cs =>
      rw [char_split]
      by_cases h : c = sep
      · simp [h]
      · simp only [h, if_false]
        rcases hs : char_split sep cs with _ | ⟨p, ps⟩ <;> simp

theorem char_split_of_not_mem {sep : Char} {l : List Char} (h : sep ∉ l) :
    char_split sep l = [l] := by
  induction l with
  | nil => rfl
  | cons c cs ih =>
      rw [char_split]
      have hc : c ≠ sep := fun hh => h (by simp [hh])
      have hcs : sep ∉ cs := fun hh => h (by simp [hh])
      rw [ih hcs]
      simp [hc]

theorem char_split_append_cons {sep : Char} {l1 : List Char} (h : sep ∉ l1)
    (l2 : List Char) :
    char_split sep (l1 ++ sep :: l2) = l1 :: char_split sep l2 := by
  induction l1 with
  | nil => simp [char_split]
  | cons c cs ih =>
      have hc : c ≠ sep := fun hh => h (by simp [hh])
      have hcs : sep ∉ cs := fun hh => h (by simp [hh])
      rw [List.cons_append, char_split]
      rw [ih hcs]
      simp [hc]

theorem find_map_replace (l : List (String × X402Authorization)) (k : String)
    (v : X402Authorization) (h : l.any (fun kv => kv.1 = k) = true) :
    (l.map (fun kv => if kv.1 = k then (kv.1, v) else kv)).find?
      (fun kv => kv.1 = k) = some (k, v) := by
  induction l with
  | nil => simp at h
  | cons hd tl ih =>
      by_cases h1 : hd.1 = k
      · subst h1
        simp [List.find?_cons]
      · have h2 : tl.any (fun kv => kv.1 = k) = true := by
          simpa [List.any_cons, h1] using h
        simp only [List.map_cons, if_neg h1]
        rw [List.find?_cons_of_neg _ (by simp [h1])]
        exact ih h2

theorem find_append_key (l : List (String × X402Authorization)) (k : String)
    (v : X402Authorization) (h : l.any (fun kv => kv.1 = k) = false) :
    (l ++ [(k, v)]).find? (fun kv => kv.1 = k) = some (k, v) := by
  induction l with
  | nil => simp [List.find?]
  | cons hd tl ih =>
      have h1 : ¬hd.1 = k := by
        intro hh
        simp [List.any_cons, hh] at h
      have h2 : tl.any (fun kv => kv.1 = k) = false := by
        simpa [List.any_cons, h1] using h
      rw [List.cons_append, List.find?_cons_of_neg _ (by simp [h1])]
      exact ih h2

/-- The store lookup after an update at the same key. -/
theorem store_get_set (store : X402Store) (k : String) (v : X402Authorization) :
    store_get (store_set store k v) k = some v := by
  rw [store_set, store_get]
  by_cases hany : store.any (fun kv => kv.1 = k)
  · rw [if_pos hany, find_map_replace store k v hany]
    rfl
  · rw [if_neg hany, find_append_key store k v (Bool.eq_false_iff.mpr hany)]
    rfl

/-! ## Claims -/

/-- C7: for every recipient list of 501 entries, whatever the entries contain,
`BatchModule.validate` raises `BATCH_SIZE_EXCEEDED` (code `PB_BATCH_001`) for
the whole call; the result is the same for any two 501-entry lists, so no
per-recipient validation errors are produced. -/
theorem batch_validate_size_exceeded (rs rs' : List BatchRecipient)
    (h : rs.length = 501) (h' : rs'.length = 501) :
    batch_validate rs =
      Except.error ⟨"PB_BATCH_001", "Batch size 501 exceeds maximum of 500", false⟩ ∧
    batch_validate rs = batch_validate rs' := by
  have e1 : batch_validate rs =
      Except.error ⟨"PB_BATCH_001", "Batch size 501 exceeds maximum of 500", false⟩ := by
    rw [batch_validate, h]
    rfl
  have e2 : batch_validate rs' =
      Except.error ⟨"PB_BATCH_001", "Batch size 501 exceeds maximum of 500", false⟩ := by
    rw [batch_validate, h']
    rfl
  exact ⟨e1, by rw [e1, e2]⟩

theorem batch_validate_size_exceeded_witness :
    batch_validate (List.replicate 501 (⟨"", "", "", none, none⟩ : BatchRecipient)) =
      Except.error ⟨"PB_BATCH_001", "Batch size 501 exceeds maximum of 500", false⟩ ∧
    batch_validate (List.replicate 501 (⟨"", "", "", none, none⟩ : BatchRecipient)) =
      batch_validate (List.replicate 501
        (⟨"0x1111111111111111111111111111111111111111", "100", "USDC", none, none⟩ :
          BatchRecipient)) :=
  batch_validate_size_exceeded _ _ (by simp) (by simp)

/-- C9: `submit_signature` on a stored authorization whose `valid_before`
(= `expires_at`) has passed fails with the expired-authorization error
`PB_X402_003`, and the store afterwards holds the authorization with status
`expired`. -/
theorem x402_submit_expired (store : X402Store) (auth_id sig : String)
    (auth : X402Authorization) (now : Int) (relay : Except PBError RelayResponse)
    (hget : store_get store auth_id = some auth)
    (hexp : auth.expires_at < now) :
    x402_submit_signature store auth_id sig now relay =
      (Except.error ⟨"PB_X402_003", "Authorization has expired", false⟩,
        store_set store auth_id { auth with status := X402Status.expired }) ∧
    store_get (x402_submit_signature store auth_id sig now relay).2 auth_id =
      some { auth with status := X402Status.expired } := by
  have h1 : x402_submit_signature store auth_id sig now relay =
      (Except.error ⟨"PB_X402_003", "Authorization has expired", false⟩,
        store_set store auth_id { auth with status := X402Status.expired }) := by
    rw [x402_submit_signature, hget]
    simp [x402_is_expired, hexp]
  refine ⟨h1, ?_⟩
  rw [h1]
  exact store_get_set store auth_id _

def w_auth : X402Authorization :=
  { id := "x402_w"
    domain := ⟨"USD Coin", "2", 8453, "0x833589fCD6eDb6E08f4c7C32D4f71b54bdA02913"⟩
    types := TRANSFER_WITH_AUTHORIZATION_TYPES
    message := ⟨"", "0x1111111111111111111111111111111111111111", "100000000",
      1700000000, 1700003600, "0xa1b2"⟩
    status := .pending
    created_at := 1700000000
    expires_at := 1700003600 }

def w_store : X402Store := [("x402_w", w_auth)]

theorem x402_submit_expired_witness :
    x402_submit_signature w_store "x402_w" "0xdead" 1700090000 (.ok {}) =
      (Except.error ⟨"PB_X402_003", "Authorization has expired", false⟩,
        store_set w_store "x402_w" { w_auth with status := X402Status.expired }) ∧
    store_get (x402_submit_signature w_store "x402_w" "0xdead" 1700090000 (.ok {})).2
        "x402_w" = some { w_auth with status := X402Status.expired } :=
  x402_submit_expired w_store "x402_w" "0xdead" w_auth 1700090000 (.ok {}) (by rfl)
    (by decide)

/-- C10: `submit_signature` with a signature that is not `0x` + 130 hex
characters, on a stored non-expired authorization, fails with
`X402_INVALID_SIGNATURE` (code `PB_X402_004`) and leaves the store — hence
the authorization's status and recorded signature — entirely unchanged. -/
theorem x402_submit_invalid_signature (store : X402Store) (auth_id sig : String)
    (auth : X402Authorization) (now : Int) (relay : Except PBError RelayResponse)
    (hget : store_get store auth_id = some auth)
    (hexp : ¬auth.expires_at < now)
    (hsig : x402_is_valid_signature sig = false) :
    x402_submit_signature store auth_id sig now relay =
      (Except.error ⟨"PB_X402_004", "Invalid signature format", false⟩, store) ∧
    store_get (x402_submit_signature store auth_id sig now relay).2 auth_id =
      some auth := by
  have h1 : x402_submit_signature store auth_id sig now relay =
      (Except.error ⟨"PB_X402_004", "Invalid signature format", false⟩, store) := by
    rw [x402_submit_signature, hget]
    simp [x402_is_expired, hexp, hsig]
  exact ⟨h1, by rw [h1]; exact hget⟩

theorem x402_submit_invalid_signature_witness :
    x402_submit_signature w_store "x402_w" "0xnothex" 1700000010 (.ok {}) =
      (Except.error ⟨"PB_X402_004", "Invalid signature format", false⟩, w_store) ∧
    store_get (x402_submit_signature w_store "x402_w" "0xnothex" 1700000010 (.ok {})).2
        "x402_w" = some w_auth :=
  x402_submit_invalid_signature w_store "x402_w" "0xnothex" w_auth 1700000010 (.ok {})
    (by rfl) (by decide) (by decide)

/-- C2 (code bug): at a concrete parameter set, the payment-link signature the
module embeds and recomputes — `_generate_signature`, i.e.
`sha256(canonical + secret)[:16]` — differs from
`crypto.generate_payment_link_signature`, the truncated HMAC-SHA256 of the
same canonical string keyed by the secret that the claim (and the rest of the
code base) specifies. -/
theorem pl_signature_is_not_hmac :
    pl_signature "secret" "0x1111111111111111111111111111111111111111" "100" "USDC"
        1700000000000 none = "76eb0ebc9594e86c" ∧
    generate_payment_link_signature "0x1111111111111111111111111111111111111111" "100"
        "USDC" 1700000000000 "secret" none = "41a0fc33285f7e86" ∧
    pl_signature "secret" "0x1111111111111111111111111111111111111111" "100" "USDC"
        1700000000000 none ≠
      generate_payment_link_signature "0x1111111111111111111111111111111111111111" "100"
        "USDC" 1700000000000 "secret" none := by
  have h1 : pl_signature "secret" "0x1111111111111111111111111111111111111111" "100"
      "USDC" 1700000000000 none = "76eb0ebc9594e86c" := by rfl
  have h2 : generate_payment_link_signature "0x1111111111111111111111111111111111111111"
      "100" "USDC" 1700000000000 "secret" none = "41a0fc33285f7e86" := by rfl
  refine ⟨h1, h2, ?_⟩
  rw [h1, h2]
  decide

/-- C8: every successful `create_authorization` sets
`valid_after = now` and `valid_before = now + min(requested_validity, 24h)`
(with the 1-hour default applied when no validity is requested), and — for
otherwise-valid parameters — a requested validity of 30 seconds (below the
60-second floor) fails with the out-of-range error `PB_VALID_003`. -/
theorem x402_create_authorization_window (params : X402AuthorizationParams) (now : Int)
    (nonce uuid : String) (store : X402Store) :
    (∀ auth store2,
      x402_create_authorization params now nonce uuid store = (.ok auth, store2) →
      auth.message.valid_after = now ∧
      auth.message.valid_before =
        now + min (py_or_int params.valid_for DEFAULT_VALIDITY_SECONDS)
          MAX_VALIDITY_SECONDS ∧
      auth.expires_at = auth.message.valid_before) ∧
    (params.valid_for = some 30 →
      validate_address params.to_addr (some (.num params.chain_id)) = .ok () →
      validate_amount params.amount = .ok () →
      validate_token params.token = .ok () →
      (x402_create_authorization params now nonce uuid store).1 =
        .error ⟨"PB_VALID_003", "valid_for must be between 60 and 86400 seconds", false⟩) := by
  constructor
  · intro auth store2 h
    rw [x402_create_authorization] at h
    split at h
    case _ => simp at h
    case _ =>
      split at h
      case _ => simp at h
      case _ =>
        split at h
        case _ => simp at h
        case _ =>
          split at h
          case _ => simp at h
          rw [Prod.mk.injEq] at h
          obtain ⟨h1, -⟩ := h
          rw [Except.ok.injEq] at h1
          subst h1
          exact ⟨rfl, rfl, rfl⟩
  · intro h30 ha hm ht
    have hv : x402_validate_params params =
        .error ⟨"PB_VALID_003", "valid_for must be between 60 and 86400 seconds", false⟩ := by
      rw [x402_validate_params, ha, h30]
      simp only [hm, ht, MAX_VALIDITY_SECONDS]
      rfl
    rw [x402_create_authorization, hv]

def c8_params : X402AuthorizationParams :=
  ⟨"0x1111111111111111111111111111111111111111", "100", "USDC", 8453, none⟩

def c8_auth : X402Authorization :=
  { id := "x402_wxyz"
    domain := ⟨"USD Coin", "2", 8453, "0x833589fCD6eDb6E08f4c7C32D4f71b54bdA02913"⟩
    types := TRANSFER_WITH_AUTHORIZATION_TYPES
    message := ⟨"", "0x1111111111111111111111111111111111111111", "100000000",
      1700000000, 1700003600, "0xa1b2"⟩
    status := .pending
    created_at := 1700000000
    expires_at := 1700003600 }

theorem x402_create_authorization_window_witness :
    (c8_auth.message.valid_after = 1700000000 ∧
     c8_auth.message.valid_before =
       1700000000 + min (py_or_int c8_params.valid_for DEFAULT_VALIDITY_SECONDS)
         MAX_VALIDITY_SECONDS ∧
     c8_auth.expires_at = c8_auth.message.valid_before) ∧
    (x402_create_authorization { c8_params with valid_for := some 30 } 1700000000
        "0xa1b2" "wxyz" []).1 =
      .error ⟨"PB_VALID_003", "valid_for must be between 60 and 86400 seconds", false⟩ :=
  ⟨(x402_create_authorization_window c8_params 1700000000 "0xa1b2" "wxyz" []).1 c8_auth
      [("x402_wxyz", c8_auth)] (by rfl),
   (x402_create_authorization_window { c8_params with valid_for := some 30 } 1700000000
      "0xa1b2" "wxyz" []).2 rfl (by rfl) (by rfl) (by rfl)⟩

/-- C4: for every parseable payment-link URL whose `to` parameter contains a
homoglyph, `verify` returns `valid=false`, `tampered_fields=["to"]` and the
homoglyph report.  The API secret and the URL's `sig` value are universally
quantified while the result mentions neither, so the signature is neither
recomputed nor compared. -/
theorem pl_verify_homoglyph (secret : String) (url : Url) (now : Int)
    (params : PaymentLinkParams) (sig : String) (expiry : Int) (det : HomoglyphDetails)
    (hparse : pl_parse_url url now = some (params, sig, expiry))
    (hdet : detect_homoglyphs params.to_addr = some det) :
    pl_verify secret url now =
      { valid := false, expired := false, tampered_fields := ["to"]
        params := some params
        error := some "Homoglyph attack detected in address"
        homoglyph_detected := some true, homoglyph_details := some det } := by
  rw [pl_verify, hparse]
  simp [hdet]

def c4_to : String := "0xаaaaaaaaaaaaaaaaaaaaaaaaaaaaaaaaaaaaaaaa"

def c4_url : Url :=
  ⟨PAYMENT_LINK_BASE_URL,
   [("to", c4_to), ("amount", "100"), ("sig", "deadbeefdeadbeef"), ("exp", "7200000")]⟩

def c4_params : PaymentLinkParams :=
  { to_addr := c4_to, amount := "100", token := some "USDC", chain := none
    expiry_hours := some 2, memo := none, order_id := none, callback_url := none
    webhook_url := none, allowed_chains := none, allowed_tokens := none }

theorem pl_verify_homoglyph_witness :
    pl_verify "sk" c4_url 0 =
      { valid := false, expired := false, tampered_fields := ["to"]
        params := some c4_params
        error := some "Homoglyph attack detected in address"
        homoglyph_detected := some true
        homoglyph_details := some ⟨c4_to, [⟨2, 'а', "U+0430", 'a'⟩]⟩ } :=
  pl_verify_homoglyph "sk" c4_url 0 c4_params "deadbeefdeadbeef" 7200000
    ⟨c4_to, [⟨2, 'а', "U+0430", 'a'⟩]⟩ (by rfl) (by rfl)

/-! ### C6 helper facts -/

theorem valid_address_no_homoglyphs {a : String} {c : Option ChainVal}
    (h : is_valid_address a c = true) : detect_homoglyphs a = none := by
  rw [is_valid_address] at h
  by_cases hc : contains_homoglyphs a
  · simp [hc] at h
  · rw [contains_homoglyphs] at hc
    exact Option.not_isSome_iff_eq_none.mp (by simpa using hc)

theorem is_valid_address_ne_empty {a : String} {c : Option ChainVal}
    (h : is_valid_address a c = true) : a ≠ "" := by
  intro he
  subst he
  rw [is_valid_address] at h
  by_cases h1 : (c == some (ChainVal.str "solana")) = true
  · rw [if_neg (by decide), if_pos h1] at h
    exact absurd h (by decide)
  · by_cases h2 : (c == some (ChainVal.str "bitcoin")) = true
    · rw [if_neg (by decide), if_neg (by simpa using h1), if_pos h2] at h
      exact absurd h (by decide)
    · rw [if_neg (by decide), if_neg (by simpa using h1), if_neg (by simpa using h2)] at h
      exact absurd h (by decide)

/-- C6 (amended): for a three-recipient batch — a valid address `a`, an
invalid (but homoglyph-free, non-empty) address `b`, and a duplicate of `a` —
`validate` returns exactly **three** entries ordered by index: new
warning-only duplicate entries for indices 0 and 2 (each index sharing the
duplicated address gets one) and the invalid-address entry for index 1.  A
duplicate warning is appended to an existing error entry for its index when
one exists, else a new warning-only entry is created. -/
theorem batch_validate_one_invalid_one_dup (a b : String)
    (hav : is_valid_address a none = true)
    (hbn : b ≠ "")
    (hbh : detect_homoglyphs b = none)
    (hbv : is_valid_address b none = false)
    (hab : py_lower a ≠ py_lower b) :
    batch_validate
      [⟨a, "100", "USDC", none, none⟩, ⟨b, "100", "USDC", none, none⟩,
       ⟨a, "100", "USDC", none, none⟩] =
      Except.ok
        [⟨0, py_lower a, ["Duplicate address (appears 2 times)"]⟩,
         ⟨1, b, ["Invalid address format"]⟩,
         ⟨2, py_lower a, ["Duplicate address (appears 2 times)"]⟩] := by
  have han := is_valid_address_ne_empty hav
  have hah := valid_address_no_homoglyphs hav
  have eA : batch_recipient_errors ⟨a, "100", "USDC", none, none⟩ = [] := by
    rw [batch_recipient_errors]
    simp only [hah, han, hav]
    simp [show is_valid_amount "100" = true from by decide,
      show is_valid_token "USDC" = true from by decide]
  have eB : batch_recipient_errors ⟨b, "100", "USDC", none, none⟩ =
      ["Invalid address format"] := by
    rw [batch_recipient_errors]
    simp only [hbh, hbn, hbv]
    simp [show is_valid_amount "100" = true from by decide,
      show is_valid_token "USDC" = true from by decide]
  rw [batch_validate]
  rw [if_neg (by simp), if_neg (by simp)]
  simp only [List.enum, List.enumFrom, List.foldl_cons, List.foldl_nil, eA, eB]
  rw [address_counts]
  simp only [List.enum, List.enumFrom, List.foldl_cons, List.foldl_nil]
  rw [if_pos han, if_pos hbn, if_pos han]
  rw [show add_count [] (py_lower a) 0 = [(py_lower a, [0])] from rfl]
  rw [show add_count [(py_lower a, [0])] (py_lower b) 1 =
    [(py_lower a, [0]), (py_lower b, [1])] from by
    rw [add_count, if_neg (by simpa using hab)]
    rfl]
  rw [show add_count [(py_lower a, [0]), (py_lower b, [1])] (py_lower a) 2 =
    [(py_lower a, [0, 2]), (py_lower b, [1])] from by
    rw [add_count, if_pos (by simp)]
    simp [hab, Ne.symm hab]]
  rw [apply_dups]
  simp only [List.foldl_cons, List.foldl_nil, List.length_cons, List.length_nil]
  norm_num
  rw [show add_dup_msg [⟨1, b, ["Invalid address format"]⟩] (py_lower a) 2 0 =
    [⟨1, b, ["Invalid address format"]⟩, ⟨0, py_lower a, ["Duplicate address (appears 2 times)"]⟩]
    from by rw [add_dup_msg, if_neg (by simp [dup_msg])]; rfl]
  rw [show add_dup_msg
      [⟨1, b, ["Invalid address format"]⟩,
       ⟨0, py_lower a, ["Duplicate address (appears 2 times)"]⟩] (py_lower a) 2 2 =
      [⟨1, b, ["Invalid address format"]⟩,
       ⟨0, py_lower a, ["Duplicate address (appears 2 times)"]⟩,
       ⟨2, py_lower a, ["Duplicate address (appears 2 times)"]⟩]
    from by rw [add_dup_msg, if_neg (by simp [dup_msg])]; rfl]
  rfl

def c6_addr : String := "0x1111111111111111111111111111111111111111"

def c6_recipients : List BatchRecipient :=
  [⟨c6_addr, "100", "USDC", none, none⟩, ⟨"invalid", "100", "USDC", none, none⟩,
   ⟨c6_addr, "100", "USDC", none, none⟩]

def c6_result : List BatchValidationError :=
  [⟨0, c6_addr, ["Duplicate address (appears 2 times)"]⟩,
   ⟨1, "invalid", ["Invalid address format"]⟩,
   ⟨2, c6_addr, ["Duplicate address (appears 2 times)"]⟩]

/-- C6 (counterexample): for the concrete batch `[valid A, invalid B, A]`
the claim's premise ("one invalid address and one duplicate of a valid
address") holds, but `validate` returns exactly three entries, not two. -/
theorem batch_validate_dup_counterexample :
    batch_validate c6_recipients = Except.ok c6_result ∧ c6_result.length ≠ 2 := by
  constructor
  · rfl
  · decide

theorem batch_validate_one_invalid_one_dup_witness :
    batch_validate
      [⟨c6_addr, "100", "USDC", none, none⟩, ⟨"invalid", "100", "USDC", none, none⟩,
       ⟨c6_addr, "100", "USDC", none, none⟩] =
      Except.ok
        [⟨0, py_lower c6_addr, ["Duplicate address (appears 2 times)"]⟩,
         ⟨1, "invalid", ["Invalid address format"]⟩,
         ⟨2, py_lower c6_addr, ["Duplicate address (appears 2 times)"]⟩] :=
  batch_validate_one_invalid_one_dup c6_addr "invalid" (by decide) (by decide) (by rfl)
    (by decide) (by decide)

/-- C5 (amended): for every parseable payment-link URL whose `to` field is
free of homoglyphs, `verify` reports `expired` exactly when the clock is
strictly past the `exp` timestamp — independently of the signature — and
`valid` is true exactly when the signature matches the recomputed one and the
link is not expired. -/
theorem pl_verify_expiry_and_validity (secret : String) (url : Url) (now : Int)
    (params : PaymentLinkParams) (sig : String) (expiry : Int)
    (hparse : pl_parse_url url now = some (params, sig, expiry))
    (hhg : detect_homoglyphs params.to_addr = none) :
    (pl_verify secret url now).expired = is_expired now expiry ∧
    (pl_verify secret url now).valid =
      ((sig == pl_signature secret params.to_addr params.amount
          (py_or_str params.token "USDC") expiry params.memo) && !is_expired now expiry) := by
  rw [pl_verify, hparse]
  simp [hhg]

def c5_url : Url :=
  ⟨PAYMENT_LINK_BASE_URL,
   [("to", "0xаaaaaaaaaaaaaaaaaaaaaaaaaaaaaaaaaaaaaaaa"), ("amount", "100"),
    ("sig", "deadbeefdeadbeef"), ("exp", "1")]⟩

/-- C5 (counterexample): `c5_url` is parseable with `exp = 1` and is verified
at time 1000, strictly after its expiry, yet `verify` reports
`expired = false` (the homoglyph branch returns before the expiry check), so
the claim as stated — `expired=true` for *every* parseable URL verified after
`exp` — is false. -/
theorem pl_verify_expired_homoglyph_counterexample :
    (pl_parse_url c5_url 1000).map (fun t => t.2.2) = some 1 ∧ (1 : Int) < 1000 ∧
    (pl_verify "sk" c5_url 1000).expired = false := by
  refine ⟨by rfl, by decide, by rfl⟩

def c5w_url : Url :=
  ⟨PAYMENT_LINK_BASE_URL,
   [("to", "0x1111111111111111111111111111111111111111"), ("amount", "100"),
    ("sig", "badsig"), ("exp", "1")]⟩

def c5w_params : PaymentLinkParams :=
  { to_addr := "0x1111111111111111111111111111111111111111", amount := "100"
    token := some "USDC", chain := none, expiry_hours := some 1, memo := none
    order_id := none, callback_url := none, webhook_url := none
    allowed_chains := none, allowed_tokens := none }

theorem pl_verify_expiry_and_validity_witness :
    (pl_verify "sk" c5w_url 1000).expired = is_expired 1000 1 ∧
    (pl_verify "sk" c5w_url 1000).valid =
      (("badsig" == pl_signature "sk" "0x1111111111111111111111111111111111111111"
          "100" (py_or_str (some "USDC") "USDC") 1 none) && !is_expired 1000 1) :=
  pl_verify_expiry_and_validity "sk" c5w_url 1000 c5w_params "badsig" 1 (by rfl) (by rfl)

/-! ### C3 helper facts: parsing the header produced by `sign` -/

theorem to_bytes_be_length (k n : Nat) : (to_bytes_be k n).length = k := by
  induction k generalizing n with
  | zero => rfl
  | succ k ih => simp [to_bytes_be, ih]

theorem sha256_bytes_length (msg : List Nat) : (sha256_bytes msg).length = 32 := by
  rw [sha256_bytes]
  simp [to_bytes_be_length]

theorem bytes_hex_length (l : List Nat) : (bytes_hex l).length = 2 * l.length := by
  induction l with
  | nil => rfl
  | cons x xs ih =>
      show (byte_hex x ++ bytes_hex xs).length = 2 * (x :: xs).length
      rw [List.length_append, ih, byte_hex]
      simp
      omega

theorem hmac_sha256_bytes_length (key msg : List Nat) :
    (hmac_sha256_bytes key msg).length = 32 :=
  sha256_bytes_length _

theorem hmac_sign_data_length (d s : String) : (hmac_sign d s).data.length = 64 := by
  show (bytes_hex (hmac_sha256_bytes (str_bytes s) (str_bytes d))).length = 64
  rw [bytes_hex_length, hmac_sha256_bytes_length]

theorem hmac_sign_ne_empty (d s : String) : hmac_sign d s ≠ "" := by
  intro h
  have := hmac_sign_data_length d s
  rw [h] at this
  simp at this

theorem mem_hmac_sign_hex (d s : String) {c : Char} (hc : c ∈ (hmac_sign d s).data) :
    ∃ k, c = hex_char k :=
  mem_bytes_hex hc

theorem comma_not_mem_t_part (ts : Int) : ',' ∉ ('t' :: '=' :: int_chars ts) := by
  intro h
  rcases List.mem_cons.mp h with h1 | h
  · exact absurd h1.symm (by decide)
  rcases List.mem_cons.mp h with h1 | h
  · exact absurd h1.symm (by decide)
  exact int_chars_ne_comma ts h rfl

theorem comma_not_mem_v1_part (d s : String) :
    ',' ∉ ('v' :: '1' :: '=' :: (hmac_sign d s).data) := by
  intro h
  rcases List.mem_cons.mp h with h1 | h
  · exact absurd h1.symm (by decide)
  rcases List.mem_cons.mp h with h1 | h
  · exact absurd h1.symm (by decide)
  rcases List.mem_cons.mp h with h1 | h
  · exact absurd h1.symm (by decide)
  obtain ⟨k, hk⟩ := mem_bytes_hex h
  exact hex_char_ne_comma k hk.symm

/-- Splitting the signed header at `,` yields the `t=` part and the `v1=`
part. -/
theorem char_split_sign_header (payload secret : String) (ts : Int) :
    char_split ','
      ("t=" ++ int_str ts ++ ",v1=" ++ hmac_sign (int_str ts ++ "." ++ payload) secret).data =
      [('t' :: '=' :: int_chars ts),
       ('v' :: '1' :: '=' :: (hmac_sign (int_str ts ++ "." ++ payload) secret).data)] := by
  have hdata :
      ("t=" ++ int_str ts ++ ",v1=" ++
        hmac_sign (int_str ts ++ "." ++ payload) secret).data =
      ('t' :: '=' :: int_chars ts) ++
        ',' :: ('v' :: '1' :: '=' :: (hmac_sign (int_str ts ++ "." ++ payload) secret).data) := by
    simp only [String.data_append]
    show ['t', '='] ++ int_chars ts ++ [',', 'v', '1', '='] ++ _ = _
    simp
  rw [hdata, char_split_append_cons (comma_not_mem_t_part ts),
    char_split_of_not_mem (comma_not_mem_v1_part _ _)]

/-- Splitting the `t=` part at `=`. -/
theorem char_split_t_part (ts : Int) :
    char_split '=' ('t' :: '=' :: int_chars ts) = [['t'], int_chars ts] := by
  have : ('t' :: '=' :: int_chars ts) = ['t'] ++ '=' :: int_chars ts := rfl
  rw [this, char_split_append_cons (by decide),
    char_split_of_not_mem (fun h => int_chars_ne_eq_sign ts h rfl)]

theorem eq_not_mem_hex (d s : String) : '=' ∉ (hmac_sign d s).data := by
  intro h
  obtain ⟨k, hk⟩ := mem_bytes_hex h
  exact hex_char_ne_eq_sign k hk.symm

theorem char_split_v1_part (d s : String) :
    char_split '=' ('v' :: '1' :: '=' :: (hmac_sign d s).data) =
      [['v', '1'], (hmac_sign d s).data] := by
  have : ('v' :: '1' :: '=' :: (hmac_sign d s).data) =
      ['v', '1'] ++ '=' :: (hmac_sign d s).data := rfl
  rw [this, char_split_append_cons (by decide),
    char_split_of_not_mem (eq_not_mem_hex d s)]

/-- Processing the `t=` part stores the parsed timestamp. -/
theorem header_parts_t_step (ts : Int) (rest : List (List Char)) (t0 : Int) (sig0 : String) :
    header_parts (('t' :: '=' :: int_chars ts) :: rest) t0 sig0 =
      header_parts rest ts sig0 := by
  rw [header_parts, char_split_t_part ts]
  simp only [List.map_cons, List.map_nil, show String.mk ['t'] = "t" from rfl, if_true]
  rw [show py_int (join_eq [String.mk (int_chars ts)]) = some ts from py_int_int_str ts]

/-- Processing the `v1=` part stores the signature value. -/
theorem header_parts_v1_step (d s : String) (rest : List (List Char)) (t0 : Int)
    (sig0 : String) :
    header_parts (('v' :: '1' :: '=' :: (hmac_sign d s).data) :: rest) t0 sig0 =
      header_parts rest t0 (hmac_sign d s) := by
  rw [header_parts, char_split_v1_part]
  simp only [List.map_cons, List.map_nil, show String.mk ['v', '1'] = "v1" from rfl,
    show (("v1" : String) = "t") = False from by simp, if_false, if_true]
  rw [show join_eq [String.mk (hmac_sign d s).data] = hmac_sign d s from rfl]

/-- `_parse_signature_header` recovers exactly the timestamp and HMAC that
`sign` put into the header. -/
theorem parse_webhook_sign_header (payload secret : String) (ts sign_now : Int)
    (hts : ts ≠ 0) :
    parse_signature_header (webhook_sign payload secret (some ts) sign_now) =
      some (ts, hmac_sign (int_str ts ++ "." ++ payload) secret) := by
  have hpy : py_or_int (some ts) sign_now = ts := by
    simp [py_or_int, hts]
  rw [webhook_sign, hpy, parse_signature_header, char_split_sign_header payload secret ts,
    header_parts_t_step, header_parts_v1_step, header_parts]
  show (if ts = 0 ∨ hmac_sign (int_str ts ++ "." ++ payload) secret = "" then none
    else some (ts, hmac_sign (int_str ts ++ "." ++ payload) secret)) =
    some (ts, hmac_sign (int_str ts ++ "." ++ payload) secret)
  rw [if_neg (by push_neg; exact ⟨hts, hmac_sign_ne_empty _ _⟩)]

/-- C3 (amended): for every payload that parses as a valid webhook event,
every secret, and every non-zero timestamp `T` (`sign` substitutes the
current time for a falsy timestamp), verifying the header produced by
`sign(P, S, T)` at time `T` succeeds; and for **any** payload, verifying
that header at time `T+301` with `tolerance = 300` yields `valid = false`,
`timestamp_valid = false` — for any verification secret, so the branch is
taken before any HMAC is computed or compared. -/
theorem webhook_sign_verify_roundtrip (payload payload2 secret secret2 : String)
    (timestamp tolerance sign_now sign_now2 : Int) (event : WebhookEvent)
    (hts : timestamp ≠ 0) :
    (0 ≤ tolerance → webhook_parse payload = .ok event →
      webhook_verify payload (webhook_sign payload secret (some timestamp) sign_now)
        secret tolerance timestamp =
        { valid := true, event := some event, timestamp_valid := some true }) ∧
    webhook_verify payload2 (webhook_sign payload secret (some timestamp) sign_now2)
        secret2 300 (timestamp + 301) =
      { valid := false, error := some "Webhook timestamp is outside tolerance window"
        timestamp_valid := some false } := by
  constructor
  · intro htol hparse
    rw [webhook_verify, parse_webhook_sign_header payload secret _ _ hts]
    simp only [Int.sub_self, Int.natAbs_zero, Nat.cast_zero, htol, if_true, beq_self_eq_true,
      hparse]
  · rw [webhook_verify, parse_webhook_sign_header payload secret _ _ hts]
    simp only [show timestamp + 301 - timestamp = 301 from by omega]
    rw [if_neg (by decide)]

def c3_payload : String :=
  "\x7b\"id\":\"evt_123\",\"type\":\"payment.completed\",\"data\":\x7b\x7d\x7d"

def c3_event : WebhookEvent :=
  ⟨"evt_123", "payment.completed", none, .jobj [], ""⟩

theorem webhook_sign_verify_roundtrip_witness :
    webhook_verify c3_payload (webhook_sign c3_payload "whsec_abc" (some 1700000000) 0)
        "whsec_abc" 300 1700000000 =
      { valid := true, event := some c3_event, timestamp_valid := some true } ∧
    webhook_verify c3_payload (webhook_sign c3_payload "whsec_abc" (some 1700000000) 0)
        "other" 300 1700000301 =
      { valid := false, error := some "Webhook timestamp is outside tolerance window"
        timestamp_valid := some false } :=
  ⟨(webhook_sign_verify_roundtrip c3_payload c3_payload "whsec_abc" "other"
      1700000000 300 0 0 c3_event (by decide)).1 (by decide) (by rfl),
   (webhook_sign_verify_roundtrip c3_payload c3_payload "whsec_abc" "other"
      1700000000 300 0 0 c3_event (by decide)).2⟩

/-- C3 (counterexample): the payload `"x"` is not valid JSON, so even though
the signature and timestamp checks pass, `verify` of `sign("x", S, T)` at
time `T` returns `valid = false` (the event-parse exception is caught and
reported), refuting the claim's "for every payload P". -/
theorem webhook_verify_unparseable_payload_counterexample :
    (webhook_verify "x" (webhook_sign "x" "sec" (some 1000) 0) "sec" 300 1000).valid =
      false ∧
    (webhook_verify "x" (webhook_sign "x" "sec" (some 1000) 0) "sec" 300 1000).error =
      some "Invalid webhook payload JSON" := by
  constructor
  · rfl
  · rfl

/-! ### C1 helper facts -/

theorem validate_address_ok {a : String} {c : Option ChainVal}
    (h : validate_address a c = .ok ()) :
    detect_homoglyphs a = none ∧ is_valid_address a c = true := by
  rw [validate_address] at h
  cases hd : detect_homoglyphs a with
  | some det => rw [hd] at h; simp at h
  | none =>
      rw [hd] at h
      by_cases hv : is_valid_address a c = true
      · exact ⟨rfl, hv⟩
      · rw [if_neg hv] at h
        simp at h

theorem validate_amount_ok_ne_empty {am : String} (h : validate_amount am = .ok ()) :
    am ≠ "" := by
  intro he
  subst he
  rw [validate_amount, show py_float "" = none from rfl] at h
  simp at h

theorem py_or_str_ne_empty (o : Option String) {d : String} (hd : d ≠ "") :
    py_or_str o d ≠ "" := by
  cases o with
  | none => exact hd
  | some s =>
      rw [py_or_str]
      by_cases hs : s = "" <;> simp [hs, hd]

theorem py_or_str_some_ne {t : String} (h : t ≠ "") (d : String) :
    py_or_str (some t) d = t := by
  simp [py_or_str, h]

theorem sha256_data_length (s : String) : (sha256 s).data.length = 64 := by
  show (bytes_hex (sha256_bytes (str_bytes s))).length = 64
  rw [bytes_hex_length, sha256_bytes_length]

theorem pl_signature_ne_empty (sec to_a am tok : String) (e : Int) (memo : Option String) :
    pl_signature sec to_a am tok e memo ≠ "" := by
  intro h
  have hl : (pl_signature sec to_a am tok e memo).data.length = 0 := by
    rw [h]
    rfl
  have he : (pl_signature sec to_a am tok e memo).data =
      (sha256 (link_canonical to_a am tok e memo ++ sec)).data.take 16 := rfl
  rw [he, List.length_take, sha256_data_length] at hl
  omega

theorem int_str_ne_empty (i : Int) : int_str i ≠ "" := by
  intro h
  exact int_chars_ne_nil i (congrArg String.data h)

theorem q_find_cons_self (k v : String) (rest : List (String × String)) (hv : v ≠ "") :
    q_find ((k, v) :: rest) k = some v := by
  rw [q_find, if_pos ⟨rfl, hv⟩]

theorem q_find_cons_ne (k1 v1 k : String) (rest : List (String × String)) (h : k1 ≠ k) :
    q_find ((k1, v1) :: rest) k = q_find rest k := by
  rw [q_find, if_neg (fun hc => h hc.1)]

theorem q_find_nil (k : String) : q_find [] k = none := rfl

theorem q_find_opt_str (K : String) (o : Option String) (rest : List (String × String))
    (k : String) (h : K ≠ k) :
    q_find (opt_str_pair K o ++ rest) k = q_find rest k := by
  cases o with
  | none => rfl
  | some v =>
      rw [opt_str_pair]
      by_cases hv : v = ""
      · rw [if_pos hv]
        rfl
      · rw [if_neg hv, List.cons_append, List.nil_append, q_find_cons_ne _ _ _ _ h]

theorem q_find_opt_map {α : Type} (K : String) (o : Option α) (f : α → String)
    (rest : List (String × String)) (k : String) (h : K ≠ k) :
    q_find (opt_map_pair K o f ++ rest) k = q_find rest k := by
  cases o with
  | none => rfl
  | some v => rw [opt_map_pair, List.cons_append, List.nil_append, q_find_cons_ne _ _ _ _ h]

theorem q_find_opt_list {α : Type} (K : String) (o : Option (List α)) (f : α → String)
    (rest : List (String × String)) (k : String) (h : K ≠ k) :
    q_find (opt_list_pair K o f ++ rest) k = q_find rest k := by
  cases o with
  | none => rfl
  | some l =>
      cases l with
      | nil => rfl
      | cons x xs =>
          rw [show opt_list_pair K (some (x :: xs)) f =
              [(K, String.intercalate "," ((x :: xs).map f))] from rfl,
            List.cons_append, List.nil_append, q_find_cons_ne _ _ _ _ h]

/-- The query-list shape `_build_url` produces: the six required pairs
followed by the optional blocks. -/
def qshape (to_v am tok sig pid : String) (exp_i : Int)
    (rest : List (String × String)) : List (String × String) :=
  ("to", to_v) :: ("amount", am) :: ("token", tok) :: ("exp", int_str exp_i) ::
    ("sig", sig) :: ("id", pid) :: rest

/-- The optional blocks of `_build_url`, in insertion order. -/
def link_opt_blocks (params : PaymentLinkParams) : List (String × String) :=
  opt_map_pair "chain" params.chain chain_val_str ++
    opt_str_pair "memo" params.memo ++
    opt_str_pair "orderId" params.order_id ++
    opt_str_pair "callback" params.callback_url ++
    opt_list_pair "chains" params.allowed_chains chain_val_str ++
    opt_list_pair "tokens" params.allowed_tokens id

theorem pl_build_url_eq (params : PaymentLinkParams) (tok : String) (e : Int)
    (sig pid : String) :
    pl_build_url params tok e sig pid =
      ⟨PAYMENT_LINK_BASE_URL,
       qshape params.to_addr params.amount tok sig pid e (link_opt_blocks params)⟩ := rfl

theorem q_find_qshape_to (to_v am tok sig pid : String) (e : Int) (rest : List (String × String))
    (h : to_v ≠ "") : q_find (qshape to_v am tok sig pid e rest) "to" = some to_v :=
  q_find_cons_self _ _ _ h

theorem q_find_qshape_amount (to_v am tok sig pid : String) (e : Int)
    (rest : List (String × String)) (h : am ≠ "") :
    q_find (qshape to_v am tok sig pid e rest) "amount" = some am := by
  rw [qshape, q_find_cons_ne _ _ _ _ (by decide)]
  exact q_find_cons_self _ _ _ h

theorem q_find_qshape_token (to_v am tok sig pid : String) (e : Int)
    (rest : List (String × String)) (h : tok ≠ "") :
    q_find (qshape to_v am tok sig pid e rest) "token" = some tok := by
  rw [qshape, q_find_cons_ne _ _ _ _ (by decide), q_find_cons_ne _ _ _ _ (by decide)]
  exact q_find_cons_self _ _ _ h

theorem q_find_qshape_exp (to_v am tok sig pid : String) (e : Int)
    (rest : List (String × String)) :
    q_find (qshape to_v am tok sig pid e rest) "exp" = some (int_str e) := by
  rw [qshape, q_find_cons_ne _ _ _ _ (by decide), q_find_cons_ne _ _ _ _ (by decide),
    q_find_cons_ne _ _ _ _ (by decide)]
  exact q_find_cons_self _ _ _ (int_str_ne_empty e)

theorem q_find_qshape_sig (to_v am tok sig pid : String) (e : Int)
    (rest : List (String × String)) (h : sig ≠ "") :
    q_find (qshape to_v am tok sig pid e rest) "sig" = some sig := by
  rw [qshape, q_find_cons_ne _ _ _ _ (by decide), q_find_cons_ne _ _ _ _ (by decide),
    q_find_cons_ne _ _ _ _ (by decide), q_find_cons_ne _ _ _ _ (by decide)]
  exact q_find_cons_self _ _ _ h

theorem q_find_opt_list_last {α : Type} (K : String) (o : Option (List α)) (f : α → String)
    (k : String) (h : K ≠ k) : q_find (opt_list_pair K o f) k = none := by
  cases o with
  | none => rfl
  | some l =>
      cases l with
      | nil => rfl
      | cons x xs =>
          rw [show opt_list_pair K (some (x :: xs)) f =
              [(K, String.intercalate "," ((x :: xs).map f))] from rfl,
            q_find_cons_ne _ _ _ _ h]
          rfl

/-- The memo the verifier reads back from a built URL is the memo the builder
put in, under Python truthiness. -/
theorem q_find_qshape_memo (params : PaymentLinkParams) (to_v am tok sig pid : String)
    (e : Int) :
    q_find (qshape to_v am tok sig pid e (link_opt_blocks params)) "memo" =
      (match params.memo with
       | some m => if m = "" then none else some m
       | none => none) := by
  rw [qshape, q_find_cons_ne _ _ _ _ (by decide), q_find_cons_ne _ _ _ _ (by decide),
    q_find_cons_ne _ _ _ _ (by decide), q_find_cons_ne _ _ _ _ (by decide),
    q_find_cons_ne _ _ _ _ (by decide), q_find_cons_ne _ _ _ _ (by decide),
    link_opt_blocks]
  rw [List.append_assoc, List.append_assoc, List.append_assoc, List.append_assoc]
  rw [q_find_opt_map _ _ _ _ _ (by decide)]
  cases hm : params.memo with
  | none =>
      rw [opt_str_pair, List.nil_append, q_find_opt_str _ _ _ _ (by decide)]
      rw [q_find_opt_str _ _ _ _ (by decide), q_find_opt_list _ _ _ _ _ (by decide),
        q_find_opt_list_last _ _ _ _ (by decide)]
  | some m =>
      rw [opt_str_pair]
      by_cases hme : m = ""
      · rw [if_pos hme, List.nil_append, q_find_opt_str _ _ _ _ (by decide)]
        rw [q_find_opt_str _ _ _ _ (by decide), q_find_opt_list _ _ _ _ _ (by decide),
          q_find_opt_list_last _ _ _ _ (by decide)]
        simp [hme]
      · rw [if_neg hme, List.cons_append, List.nil_append,
          q_find_cons_self _ _ _ hme]
        simp [hme]

theorem opt_bind_some {α β : Type} (a : α) (f : α → Option β) :
    ((some a >>= f : Option β)) = f a := rfl

/-- Parsing a URL of the built shape recovers the required fields. -/
theorem pl_parse_url_shape (base to_v am tok sig pid : String) (exp_i now2 : Int)
    (rest : List (String × String))
    (hto : to_v ≠ "") (ham : am ≠ "") (htok : tok ≠ "") (hsig : sig ≠ "") :
    pl_parse_url ⟨base, qshape to_v am tok sig pid exp_i rest⟩ now2 =
      some
        ({ to_addr := to_v, amount := am, token := some tok
           chain := parse_chain_field (qshape to_v am tok sig pid exp_i rest)
           expiry_hours := some (max 1 ((exp_i - now2).fdiv (60 * 60 * 1000)))
           memo := q_find (qshape to_v am tok sig pid exp_i rest) "memo"
           order_id := q_find (qshape to_v am tok sig pid exp_i rest) "orderId"
           callback_url := q_find (qshape to_v am tok sig pid exp_i rest) "callback"
           allowed_chains := parse_allowed_chains_field (qshape to_v am tok sig pid exp_i rest)
           allowed_tokens := parse_allowed_tokens_field (qshape to_v am tok sig pid exp_i rest) },
         sig, exp_i) := by
  rw [pl_parse_url]
  simp only [q_find_qshape_to _ _ _ _ _ _ _ hto, q_find_qshape_amount _ _ _ _ _ _ _ ham,
    q_find_qshape_token _ _ _ _ _ _ _ htok, q_find_qshape_exp,
    q_find_qshape_sig _ _ _ _ _ _ _ hsig, py_int_int_str, opt_bind_some,
    Option.getD_some]

theorem except_bind_error {ε : Type} {α β : Type} (f : α → Except ε β) (e : ε) :
    ((Except.error e : Except ε α) >>= f) = Except.error e := rfl

theorem except_bind_ok {ε : Type} {α β : Type} (f : α → Except ε β) (a : α) :
    ((Except.ok a : Except ε α) >>= f) = f a := rfl

/-- C1: for every parameter set that `generate` accepts, verifying the
returned URL — unmodified, at any time up to the link's expiry (in
particular immediately) — yields `valid = true`, `expired = false` and an
empty `tampered_fields` list. -/
theorem pl_generate_verify_roundtrip (api_secret : String) (params : PaymentLinkParams)
    (now_ms verify_ms : Int) (uuid : String) (link : PaymentLink)
    (hgen : pl_generate api_secret params now_ms uuid = .ok link)
    (hv : verify_ms ≤ link.expires_at) :
    (pl_verify api_secret link.url verify_ms).valid = true ∧
    (pl_verify api_secret link.url verify_ms).expired = false ∧
    (pl_verify api_secret link.url verify_ms).tampered_fields = [] := by
  rw [pl_generate] at hgen
  cases hval : pl_validate_params params with
  | error e =>
      rw [hval, except_bind_error] at hgen
      simp at hgen
  | ok u =>
      cases u
      rw [hval, except_bind_ok] at hgen
      have hAF : validate_address params.to_addr params.chain = .ok () ∧
          validate_amount params.amount = .ok () := by
        rw [pl_validate_params] at hval
        cases hA : validate_address params.to_addr params.chain with
        | error e2 =>
            rw [hA, except_bind_error] at hval
            simp at hval
        | ok u2 =>
            cases u2
            rw [hA, except_bind_ok] at hval
            cases hAm : validate_amount params.amount with
            | error e3 =>
                rw [hAm, except_bind_error] at hval
                simp at hval
            | ok u3 =>
                cases u3
                exact ⟨rfl, rfl⟩
      obtain ⟨hA, hAm⟩ := hAF
      obtain ⟨hah, hav⟩ := validate_address_ok hA
      have hto : params.to_addr ≠ "" := is_valid_address_ne_empty hav
      have ham : params.amount ≠ "" := validate_amount_ok_ne_empty hAm
      injection hgen with hgen
      set tok := py_or_str params.token "USDC" with htok
      set expiry := now_ms + py_or_int params.expiry_hours 24 * 60 * 60 * 1000 with hexp
      set sig := pl_signature api_secret params.to_addr params.amount tok expiry params.memo
        with hsig
      set pid := "pay_" ++ strip_dashes uuid with hpid
      have htokne : tok ≠ "" := by
        rw [htok]
        exact py_or_str_ne_empty _ (by decide)
      have hsigne : sig ≠ "" := by
        rw [hsig]
        exact pl_signature_ne_empty _ _ _ _ _ _
      have hurl : link.url = pl_build_url params tok expiry sig pid := by
        rw [← hgen]
      have hexpat : link.expires_at = expiry := by
        rw [← hgen]
      rw [hexpat] at hv
      have hexpf : is_expired verify_ms expiry = false := by
        rw [is_expired]
        exact decide_eq_false (by omega)
      have hparse := pl_parse_url_shape PAYMENT_LINK_BASE_URL params.to_addr params.amount
        tok sig pid expiry verify_ms (link_opt_blocks params) hto ham htokne hsigne
      rw [hurl, pl_build_url_eq]
      rw [pl_verify, hparse]
      simp only [hah, hexpf]
      rw [q_find_qshape_memo params]
      have hexpected :
          (match params.memo with
            | some m => if m = "" then none else some m
            | none => none) = params.memo ∨
          ((match params.memo with
            | some m => if m = "" then none else some m
            | none => none) = none ∧ params.memo = some "") := by
        cases hm : params.memo with
        | none => exact Or.inl rfl
        | some m =>
            by_cases hme : m = ""
            · subst hme
              exact Or.inr ⟨by simp, rfl⟩
            · exact Or.inl (by simp [hme])
      rcases hexpected with hmeq | ⟨hmeq, hm0⟩
      · rw [hmeq, py_or_str_some_ne htokne, ← hsig]
        simp
      · rw [hmeq, py_or_str_some_ne htokne]
        rw [hsig, hm0]
        rw [show pl_signature api_secret params.to_addr params.amount tok expiry (some "") =
          pl_signature api_secret params.to_addr params.amount tok expiry none from rfl]
        simp

def c1_params : PaymentLinkParams :=
  { to_addr := "0x1111111111111111111111111111111111111111", amount := "100" }

def c1_link : PaymentLink :=
  { url :=
      ⟨"https://app.protocolbanks.com/pay",
       [("to", "0x1111111111111111111111111111111111111111"), ("amount", "100"),
        ("token", "USDC"), ("exp", "1700086400000"), ("sig", "460d97afa15dac84"),
        ("id", "pay_abcdef01")]⟩
    short_url := "https://app.protocolbanks.com/p/abcdef01"
    params :=
      { to_addr := "0x1111111111111111111111111111111111111111", amount := "100"
        token := some "USDC", chain := none, expiry_hours := some 24, memo := none
        order_id := none, callback_url := none, webhook_url := none
        allowed_chains := none, allowed_tokens := none }
    signature := "460d97afa15dac84"
    expires_at := 1700086400000
    created_at := 1700000000000
    payment_id := "pay_abcdef01" }

theorem pl_generate_verify_roundtrip_witness :
    (pl_verify "sk_secret" c1_link.url 1700000000000).valid = true ∧
    (pl_verify "sk_secret" c1_link.url 1700000000000).expired = false ∧
    (pl_verify "sk_secret" c1_link.url 1700000000000).tampered_fields = [] :=
  pl_generate_verify_roundtrip "sk_secret" c1_params 1700000000000 1700000000000
    "abcd-ef01" c1_link (by rfl) (by decide)

end ProtocolBanks
